import Mathlib

/-!
Verification development for the Dog.io arena game core.

The definitions below are a shallow embedding of the TypeScript source:
`Character` (kinematic / progression state and its operations), the
`AIController` decision layer, and the `Stage` tick (bone spawning, pickup
resolution, the per-player update loop and bite-combat resolution).

Modelling conventions:
* JavaScript numbers are modelled as `ℚ` (positions, sizes, timers) and
  `ℤ` (bone counts, which the code treats as integers).
* `Math.random()` draws are passed in as explicit parameters, constrained
  to `[0, 1)` where a theorem needs the range.
* Transcendental helpers (`Math.atan2`, `Math.sin`/`cos` of the facing
  angle, mesh-derived bounding boxes, raycasts against scene meshes) are
  supplied through an environment record of abstract functions; theorems
  quantify over the environment, counterexamples pick a concrete one.
* Rendering-only effects (nametag DOM updates, materials, animation poses,
  audio cues) have no simulation state and are not modelled.
-/

set_option maxHeartbeats 1000000
set_option maxRecDepth 20000

namespace DogGame

/-- Character constants (part_001, first `Character` variant). -/
def MIN_SIZE : ℚ := 1
def MAX_SIZE : ℚ := 5
def GROWTH_PER_BONE : ℚ := 21/1000
def BONES_TO_DROP : ℤ := 3
def HIT_FLASH_DURATION : ℚ := 1/5
def DEATH_ANIMATION_DURATION : ℚ := 1
def KNOCKBACK_DURATION : ℚ := 1/2
def KNOCKBACK_SPEED : ℚ := 1
def BITE_DURATION : ℚ := 1/4
def MOVE_SPEED : ℚ := 8/100
def AI_MOVE_SPEED_MULTIPLIER : ℚ := 12/10
def ZOOMIES_SPEED_MULTIPLIER : ℚ := 3
def ROTATION_SPEED : ℚ := 1/10
def JUMP_FORCE : ℚ := 2/10
def GRAVITY : ℚ := 8/1000
def GROUND_LEVEL : ℚ := 1/2
def PLATFORM_LANDING_BUFFER : ℚ := 3/10

/-- The mutable per-character state (`this.state` in `Character`).
Marking / barking / zoomies-activation bookkeeping is cosmetic or driven
by wall-clock timers outside the tick and is not carried here, except for
the `isZooming` flag which enters the movement-speed formula. -/
structure CharState where
  posX : ℚ
  posY : ℚ
  posZ : ℚ
  rotation : ℚ
  size : ℚ
  bones : ℤ
  isBiting : Bool
  biteTimer : ℚ
  isMoving : Bool
  velX : ℚ
  velZ : ℚ
  knockbackTime : ℚ
  name : String
  colorIndex : ℕ
  isAI : Bool
  isHit : Bool
  hitTimer : ℚ
  isDying : Bool
  dyingTimer : ℚ
  hasWon : Bool
  isJumping : Bool
  jumpVelocity : ℚ
  isZooming : Bool
  deriving DecidableEq, Repr

/-- The constructor's initial `this.state` (rotation is a random draw). -/
def spawnChar (isAI : Bool) (colorIndex : ℕ) (name : String) (rot : ℚ) : CharState :=
  { posX := 0, posY := 1/2, posZ := 0, rotation := rot
    size := MIN_SIZE, bones := 0
    isBiting := false, biteTimer := 0, isMoving := false
    velX := 0, velZ := 0, knockbackTime := 0
    name := name, colorIndex := colorIndex, isAI := isAI
    isHit := false, hitTimer := 0, isDying := false, dyingTimer := 0
    hasWon := false, isJumping := false, jumpVelocity := 0, isZooming := false }

/-- `Character.collectBone`: increment, recompute size from the (not yet
clamped) count, then clamp the count to 100 and set `hasWon` on reaching
the threshold. -/
def collectBone (c : CharState) : CharState :=
  let bones := c.bones + 1
  let size := min MAX_SIZE (MIN_SIZE + (bones : ℚ) * GROWTH_PER_BONE)
  if bones ≥ 100 then
    { c with bones := 100, size := size, hasWon := true }
  else
    { c with bones := bones, size := size }

/-- `Character.dropAllBones`: returns the dropped count; always starts the
death animation (the yelp cue is audio-only). -/
def dropAllBones (c : CharState) : CharState × ℤ :=
  if c.bones ≤ 0 then
    ({ c with isDying := true, dyingTimer := DEATH_ANIMATION_DURATION }, 0)
  else
    ({ c with bones := 0, size := MIN_SIZE,
              isDying := true, dyingTimer := DEATH_ANIMATION_DURATION }, c.bones)

/-- `Character.dropSomeBones(bonesToDrop?)`. The argument defaults through
`bonesToDrop || this.BONES_TO_DROP`, so an absent argument *or the value 0*
falls back to `BONES_TO_DROP`. Returns the count actually removed. -/
def dropSomeBones (c : CharState) (req : Option ℤ) : CharState × ℤ :=
  if c.bones ≤ 0 then (c, 0)
  else
    let bonesDropped : ℤ := match req with
      | none => BONES_TO_DROP
      | some n => if n = 0 then BONES_TO_DROP else n
    let actual := min bonesDropped c.bones
    let bones := max 0 (c.bones - actual)
    ({ c with bones := bones,
              size := max MIN_SIZE (MIN_SIZE + (bones : ℚ) * GROWTH_PER_BONE),
              isHit := true, hitTimer := HIT_FLASH_DURATION }, actual)

/-- `Character.respawn`: resets transient / combat / progression state
(the new facing angle is a random draw passed as `rot`); the caller is
responsible for the fresh position. -/
def respawn (c : CharState) (rot : ℚ) : CharState :=
  { c with rotation := rot, size := MIN_SIZE, bones := 0
           isBiting := false, biteTimer := 0, isMoving := false
           velX := 0, velZ := 0, knockbackTime := 0
           isHit := false, hitTimer := 0
           isDying := false, dyingTimer := 0, hasWon := false }

/-- `Character.applyKnockback(attacker, multiplier)`. The knockback
direction is `normalize(victim.pos − attacker.pos)`; its normalization
needs a square root, so the unit direction is passed in as `(dirX, dirZ)`.
Revenge recording for AI victims lives in the AI controller, outside this
state. -/
def applyKnockback (c : CharState) (mult dirX dirZ : ℚ) : CharState :=
  { c with velX := dirX * (KNOCKBACK_SPEED * mult)
           velZ := dirZ * (KNOCKBACK_SPEED * mult)
           knockbackTime := KNOCKBACK_DURATION
           isHit := true, hitTimer := HIT_FLASH_DURATION }

/-- Per-player part of `Stage.reset`: zero progression and combat state
(the stage then assigns a fresh safe position). -/
def stageResetChar (c : CharState) (px py pz : ℚ) : CharState :=
  { c with bones := 0, hasWon := false, size := 1
           isDying := false, isHit := false, knockbackTime := 0, biteTimer := 0
           posX := px, posY := py, posZ := pz }

/-- `Stage.handleBiteCollision(attacker, victim)`, resource-transfer part.
`r` is the `Math.random()` draw behind `dropPercentage = 0.25 + r * 0.15`;
`(kdirX, kdirZ)` is the normalized knockback direction. Returns the
victim's new state together with the number of ejected pickups handed to
`createBonePile`. The attacker's own state is untouched here (the caller
force-closes its bite window). -/
def handleBiteCollision (attacker victim : CharState) (r kdirX kdirZ : ℚ) :
    CharState × ℤ :=
  if victim.isDying then (victim, 0)
  else
    let step1 : CharState × ℤ :=
      if victim.bones = 0 then
        ((dropAllBones victim).1, 0)
      else if attacker.bones ≥ victim.bones then
        let droppedBones := victim.bones
        if droppedBones > 0 then
          let dropped := dropAllBones victim
          (dropped.1, min dropped.2 15)
        else
          ((dropAllBones victim).1, 0)
      else
        let dropPercentage : ℚ := 1/4 + r * (15/100)
        let bonesToDrop : ℤ := min ⌈(victim.bones : ℚ) * dropPercentage⌉ 10
        if bonesToDrop > 0 then
          let dropped := dropSomeBones victim (some bonesToDrop)
          (dropped.1, dropped.2)
        else (victim, 0)
    (applyKnockback step1.1 7 kdirX kdirZ, step1.2)

/-! ### Collision oracle (`checkCollision`, `checkGroundAndPlatformCollision`) -/

/-- An axis-aligned box (`THREE.Box3`). -/
structure Box where
  minX : ℚ
  minY : ℚ
  minZ : ℚ
  maxX : ℚ
  maxY : ℚ
  maxZ : ℚ
  deriving DecidableEq, Repr

/-- `Box3.intersectsBox` / the source's `checkOverlap`: component-wise
interval overlap on all three axes (touching counts). -/
def Box.overlap (a b : Box) : Bool :=
  a.minX ≤ b.maxX && a.maxX ≥ b.minX &&
  a.minZ ≤ b.maxZ && a.maxZ ≥ b.minZ &&
  a.minY ≤ b.maxY && a.maxY ≥ b.minY

/-- Scene-object classification relevant to `shouldCheckCollision`:
other dogs are `THREE.Group`s, obstacles are `THREE.Mesh`es, nametag-like
sprites are `THREE.Sprite`s. -/
inductive ObjKind where
  | group
  | mesh
  | sprite
  deriving DecidableEq, Repr

/-- A collidable scene object with its (cached) bounding box. -/
structure Collidable where
  kind : ObjKind
  box : Box
  deriving DecidableEq, Repr

/-- `shouldCheckCollision` inside `Character.checkCollision`: sprites
never collide, other dogs (groups) always do, meshes collide when
wall-like (much taller than wide) or roughly cube-shaped. -/
def shouldCheckCollision (c : Collidable) : Bool :=
  let sx := c.box.maxX - c.box.minX
  let sy := c.box.maxY - c.box.minY
  let sz := c.box.maxZ - c.box.minZ
  match c.kind with
  | .sprite => false
  | .group => true
  | .mesh => (sy > max sx sz * 2) || (|sy - sx| < 2 && |sy - sz| < 2)

/-- `Character.getBoundingBox`: box of half-extents `(0.4s, 0.3s, 0.6s)`
around the position. -/
def getBoundingBox (size px py pz : ℚ) : Box :=
  ⟨px - 4/10 * size, py - 3/10 * size, pz - 6/10 * size,
   px + 4/10 * size, py + 3/10 * size, pz + 6/10 * size⟩

/-- `Character.checkCollision(newPosition, collidables)`: bounding box at
the candidate position, widened by a `0.1` buffer on x/z, tested against
every collidable passing `shouldCheckCollision`. The caller's list already
excludes the asking character itself. -/
def checkCollision (size px py pz : ℚ) (cs : List Collidable) : Bool :=
  let b0 := getBoundingBox size px py pz
  let b : Box := ⟨b0.minX - 1/10, b0.minY, b0.minZ - 1/10,
                  b0.maxX + 1/10, b0.maxY, b0.maxZ + 1/10⟩
  cs.any fun c => shouldCheckCollision c && Box.overlap b c.box

/-- `Character.checkGroundAndPlatformCollision`: a downward ray from
`(x, y+5, z)` against platform-class objects (not sprites, wider than
tall). A box is hit when it horizontally contains the ray and its top is
below the ray start; the hit point is the box top. A hit counts as a
landing when falling (`jumpVelocity < 0`) within the landing buffer, and
the highest such top wins; the ground level `0.5` is the default. -/
def checkGroundAndPlatformCollision (jumpVel px py pz : ℚ) (cs : List Collidable) :
    Bool × ℚ :=
  let tops := cs.filterMap fun c =>
    let sx := c.box.maxX - c.box.minX
    let sy := c.box.maxY - c.box.minY
    let sz := c.box.maxZ - c.box.minZ
    if c.kind ≠ .sprite ∧ sy ≤ max sx sz ∧
        c.box.minX ≤ px ∧ px ≤ c.box.maxX ∧
        c.box.minZ ≤ pz ∧ pz ≤ c.box.maxZ ∧
        c.box.maxY ≤ py + 5 then
      some c.box.maxY
    else none
  tops.foldl
    (fun acc top =>
      if jumpVel < 0 ∧ py - top ≥ -PLATFORM_LANDING_BUFFER ∧
          py - top ≤ PLATFORM_LANDING_BUFFER ∧ top > acc.2 then
        (true, top)
      else acc)
    (false, GROUND_LEVEL)

/-! ### Per-tick character update (`Character.update` and the AI
movement application from `AIController.moveTowardsTarget`) -/

/-- The pressed-key snapshot relevant to the movement core. -/
structure Keys where
  w : Bool
  a : Bool
  s : Bool
  d : Bool
  up : Bool
  down : Bool
  left : Bool
  right : Bool
  space : Bool
  b : Bool
  deriving DecidableEq, Repr

/-- Constant false key map (AI characters ignore the key snapshot). -/
def noKeys : Keys := ⟨false, false, false, false, false, false, false, false, false, false⟩

/-- Environment of a character tick: the collidable list it is checked
against, plus abstract stand-ins for the transcendental helpers
(`Math.atan2` for facing, `Math.sin` / `Math.cos` of the facing angle). -/
structure MoveEnv where
  obstacles : List Collidable
  rotOf : ℚ → ℚ → ℚ
  aiRotOf : ℚ → ℚ → ℚ
  sinQ : ℚ → ℚ
  cosQ : ℚ → ℚ

/-- Support check, fall start and gravity integration (the shared block of
`Character.update` and `AIController.moveTowardsTarget`). -/
def fallAndGravity (obstacles : List Collidable) (dt : ℚ) (c0 : CharState) : CharState :=
  let sup := checkGroundAndPlatformCollision c0.jumpVelocity c0.posX c0.posY c0.posZ obstacles
  let c := if ¬sup.1 ∧ ¬c0.isJumping ∧ c0.posY > GROUND_LEVEL then
      { c0 with isJumping := true, jumpVelocity := 0 }
    else c0
  if c.isJumping then
    let jv := c.jumpVelocity - GRAVITY * dt * 60
    let newY := c.posY + jv
    let land := checkGroundAndPlatformCollision jv c.posX newY c.posZ obstacles
    if jv < 0 ∧ (land.1 ∨ newY ≤ land.2) then
      { c with posY := land.2, isJumping := false, jumpVelocity := 0 }
    else
      { c with posY := newY, jumpVelocity := jv }
  else c

/-- The keyboard-driven movement section of `Character.update` (the
`canMove` block of the non-AI branch), in source order: WASD/arrow move
direction, jump initiation, the collision-checked displacement, arrow-key
rotation and direct forward/backward moves, gravity, bite initiation and
the bounds clamp. Bark / zoomies / marking activation are wall-clock
driven and cosmetic and are not modelled (`isZooming` is read-only
here). -/
def moveDirX (keys : Keys) : ℚ :=
  (if keys.a ∨ keys.left then -1 else 0) + (if keys.d ∨ keys.right then 1 else 0)

def moveDirZ (keys : Keys) : ℚ :=
  (if keys.w ∨ keys.up then -1 else 0) + (if keys.s ∨ keys.down then 1 else 0)

/-- `currentMoveSpeed` of the player branch. -/
def currentMoveSpeed (c : CharState) : ℚ :=
  MOVE_SPEED * (if c.isAI then AI_MOVE_SPEED_MULTIPLIER else 1) *
    (if c.isZooming then ZOOMIES_SPEED_MULTIPLIER else 1)

/-- The WASD/arrow move-direction block: face the direction, apply the
displacement unless the resulting box collides, clearing `isMoving` on
rejection. -/
def wasdMove (env : MoveEnv) (keys : Keys) (c : CharState) : CharState :=
  let dx := moveDirX keys
  let dz := moveDirZ keys
  if dx ≠ 0 ∨ dz ≠ 0 then
    let nx := c.posX + dx * currentMoveSpeed c
    let nz := c.posZ + dz * currentMoveSpeed c
    if ¬checkCollision c.size nx c.posY nz env.obstacles then
      { c with isMoving := true, rotation := env.rotOf dx dz, posX := nx, posZ := nz }
    else
      { c with isMoving := false, rotation := env.rotOf dx dz }
  else { c with isMoving := false }

/-- The ArrowUp / ArrowDown direct moves along the faced direction
(`sign = 1` forward, `-1` backward). -/
def arrowAxisMove (env : MoveEnv) (sign : ℚ) (c : CharState) : CharState :=
  let nx := c.posX + sign * env.sinQ c.rotation * currentMoveSpeed c
  let nz := c.posZ + sign * env.cosQ c.rotation * currentMoveSpeed c
  if ¬checkCollision c.size nx c.posY nz env.obstacles then
    { c with posX := nx, posZ := nz, isMoving := true }
  else
    { c with isMoving := false }

/-- Clamp the horizontal position to the arena interior (`BOUND = 45`). -/
def boundsClamp (c : CharState) : CharState :=
  { c with posX := max (-45) (min 45 c.posX), posZ := max (-45) (min 45 c.posZ) }

def playerApplyMove (env : MoveEnv) (keys : Keys) (dt : ℚ) (c0 : CharState) : CharState :=
  let c : CharState := if keys.space ∧ ¬c0.isJumping then
      { c0 with isJumping := true, jumpVelocity := JUMP_FORCE }
    else c0
  let c : CharState := wasdMove env keys c
  let c : CharState := if keys.left then { c with rotation := c.rotation + ROTATION_SPEED } else c
  let c : CharState := if keys.right then { c with rotation := c.rotation - ROTATION_SPEED } else c
  let c : CharState := if keys.up then arrowAxisMove env 1 c else c
  let c : CharState := if keys.down then arrowAxisMove env (-1) c else c
  let c : CharState := fallAndGravity env.obstacles dt c
  let c : CharState := if keys.b ∧ ¬c.isBiting ∧ c.knockbackTime ≤ 0 then
      { c with isBiting := true, biteTimer := BITE_DURATION }
    else c
  boundsClamp c

/-- The per-tick steering decision handed from `AIController.update` to
`moveTowardsTarget`: the resolved (post obstacle-avoidance blending) unit
direction toward the target, the mode flags selecting the speed
multiplier, and the attack intent together with its probability roll. -/
structure AISteer where
  target : Option (ℚ × ℚ)
  isPursuing : Bool
  isHuntingBones : Bool
  isSneaking : Bool
  shouldBite : Bool
  biteRoll : Bool
  deriving DecidableEq, Repr

/-- The speed multiplier selected by the steering mode (variant-1
constants: bone chase 1.5, pursuit 1.3, sneak 0.8). -/
def aiSpeedMult (steer : AISteer) : ℚ :=
  if steer.isHuntingBones then 3/2
  else if steer.isPursuing then (if steer.isSneaking then 8/10 else 13/10)
  else 1

/-- The collision-checked AI displacement toward the steering target. -/
def aiTargetMove (env : MoveEnv) (steer : AISteer) (dt : ℚ) (dir : ℚ × ℚ) (c : CharState) :
    CharState :=
  let moveSpeed := MOVE_SPEED * AI_MOVE_SPEED_MULTIPLIER * (1 / c.size) * dt * 60 *
      aiSpeedMult steer
  let nx := c.posX + dir.1 * moveSpeed
  let nz := c.posZ + dir.2 * moveSpeed
  if ¬checkCollision c.size nx c.posY nz env.obstacles then
    { c with rotation := env.aiRotOf dir.1 dir.2, posX := nx, posZ := nz, isMoving := true }
  else { c with rotation := env.aiRotOf dir.1 dir.2 }

/-- The state-changing core of `AIController.moveTowardsTarget`: gravity,
the collision-checked displacement toward the steering direction, the
bite trigger and the bounds clamp. On a blocked move nothing is written —
in particular `isMoving` is only ever set to `true` here, never cleared.
The stochastic platform / stuck / defensive jumps only perturb the jump
state and are folded into the environment (no-jump rolls). -/
def aiApplyMove (env : MoveEnv) (steer : AISteer) (dt : ℚ) (c0 : CharState) : CharState :=
  let c : CharState := fallAndGravity env.obstacles dt c0
  let c : CharState := match steer.target with
    | some dir => aiTargetMove env steer dt dir c
    | none => c
  let c : CharState := if steer.shouldBite ∧ ¬c.isBiting ∧ c.knockbackTime ≤ 0 ∧ steer.biteRoll then
      { c with isBiting := true, biteTimer := BITE_DURATION }
    else c
  boundsClamp c

/-- `Character.update`: dying countdown short-circuit, hit-flash
countdown, movement (AI steering or keyboard), bite-window close,
knockback integration (position moved by the decaying velocity,
bypassing collision checks), and the end-of-tick bite-timer decrement
performed by the bite animation. -/
def charUpdate (env : MoveEnv) (keys : Keys) (dt : ℚ) (steer : AISteer) (c0 : CharState) :
    CharState :=
  if c0.isDying then { c0 with dyingTimer := max 0 (c0.dyingTimer - dt) }
  else
    let c := if c0.isHit then
        let t := max 0 (c0.hitTimer - dt)
        { c0 with hitTimer := t, isHit := if t ≤ 0 then false else c0.isHit }
      else c0
    let c := if c.isAI then aiApplyMove env steer dt c else playerApplyMove env keys dt c
    let c := if c.isBiting ∧ c.biteTimer ≤ 0 then { c with isBiting := false } else c
    let c := if c.knockbackTime > 0 then
        { c with knockbackTime := c.knockbackTime - dt
                 posX := c.posX + c.velX * dt, posZ := c.posZ + c.velZ * dt
                 velX := c.velX * (9/10), velZ := c.velZ * (9/10) }
      else c
    if c.isBiting then { c with biteTimer := max 0 (c.biteTimer - dt) } else c

/-! ### Stage: bones, the global tick and its phases -/

/-- A settled bone pickup (`Bone`): world position, collected flag, spawn
timestamp and optional lifespan (combat-spawned bones expire, world
population bones do not). -/
structure BoneState where
  posX : ℚ
  posY : ℚ
  posZ : ℚ
  collected : Bool
  timestamp : ℚ
  lifespan : Option ℚ
  deriving DecidableEq, Repr

/-- An ejected bone (`DroppingBone`): physics state plus the uncollectible
grace delay. The cosmetic rotation speed is not modelled. -/
structure DropBone where
  posX : ℚ
  posY : ℚ
  posZ : ℚ
  velX : ℚ
  velY : ℚ
  velZ : ℚ
  collected : Bool
  timestamp : ℚ
  lifespan : Option ℚ
  collectionDelay : Option ℚ
  deriving DecidableEq, Repr

/-- The Arena-owned simulation state. Dead characters awaiting their
wall-clock deferred respawn are parked in `pendingRespawns` (the
`setTimeout` re-insertion happens outside the tick). -/
structure StageState where
  players : List CharState
  bones : List BoneState
  droppingBones : List DropBone
  pendingRespawns : List CharState
  deriving DecidableEq, Repr

/-- Tick environment: the wall clock, the random draws consumed by the
tick (spawn locations, drop percentages, knockback and explosion
directions), the mesh-derived bounding boxes, the platform raycast for
falling bones, the static obstacle list, the transcendental stand-ins
and the per-player AI steering decisions. -/
structure StageEnv where
  now : ℚ
  spawnPos : ℕ → ℚ × ℚ × ℚ
  playerBox : CharState → Box
  boneBoxAt : ℚ → ℚ → ℚ → Box
  biteBox : CharState → Box
  platformRayTop : ℚ → ℚ → ℚ → Option ℚ
  staticObstacles : List Collidable
  rotOf : ℚ → ℚ → ℚ
  aiRotOf : ℚ → ℚ → ℚ
  sinQ : ℚ → ℚ
  cosQ : ℚ → ℚ
  steerFor : ℕ → AISteer
  biteRand : ℕ → ℚ
  kdir : ℕ → ℚ × ℚ
  pileDir : ℕ → ℕ → ℚ × ℚ
  pileRadius : ℕ → ℚ

/-- The per-character move environment assembled for one player. -/
def mkMoveEnv (env : StageEnv) (obs : List Collidable) : MoveEnv :=
  ⟨obs, env.rotOf, env.aiRotOf, env.sinQ, env.cosQ⟩

def TARGET_BONES : ℕ := 50

/-- Deficit spawning: count permanent (no-lifespan) bones and top the
population back up to `TARGET_BONES` with fresh permanent bones at the
drawn spawn locations (`createBone`, rejection sampling folded into
`spawnPos`). -/
def spawnBonesPhase (env : StageEnv) (bones : List BoneState) : List BoneState :=
  let permanentBones := (bones.filter fun b => b.lifespan = none).length
  if permanentBones < TARGET_BONES then
    bones ++ (List.range (TARGET_BONES - permanentBones)).map fun k =>
      let p := env.spawnPos k
      { posX := p.1, posY := p.2.1, posZ := p.2.2,
        collected := false, timestamp := env.now, lifespan := none }
  else bones

/-- The expiry sweep at the top of `updateBones`: a bone with a lifespan
whose remaining time is at most 3000 ms is marked collected (and cleaned
up). -/
def expireSettled (now : ℚ) (b : BoneState) : BoneState :=
  if ¬b.collected && (match b.lifespan with
      | some l => decide (l - (now - b.timestamp) ≤ 3000)
      | none => false) then
    { b with collected := true }
  else b

def expireDropping (now : ℚ) (b : DropBone) : DropBone :=
  if ¬b.collected && (match b.lifespan with
      | some l => decide (l - (now - b.timestamp) ≤ 3000)
      | none => false) then
    { b with collected := true }
  else b

/-- One physics step of an (uncollected) ejected bone: grace-delay
countdown, gravity, wall bounce with damping, then the landing test —
platform raycast from the updated horizontal position, else ground level.
A landed bone past its grace delay becomes a settled bone (`Sum.inl`). -/
def dropPhysicsStep (env : StageEnv) (dt : ℚ) (b : DropBone) : BoneState ⊕ DropBone :=
  let delay : Option ℚ := match b.collectionDelay with
    | some d => some (max 0 (d - dt))
    | none => none
  let vy := b.velY - 98/10 * dt
  let nextX := b.posX + b.velX * dt
  let nextZ := b.posZ + b.velZ * dt
  let nextY := b.posY + vy * dt
  let px := if nextX > 45 ∨ nextX < -45 then (if nextX > 45 then (45:ℚ) else -45) else nextX
  let vx := if nextX > 45 ∨ nextX < -45 then b.velX * (-(6/10)) else b.velX
  let pz := if nextZ > 45 ∨ nextZ < -45 then (if nextZ > 45 then (45:ℚ) else -45) else nextZ
  let vz := if nextZ > 45 ∨ nextZ < -45 then b.velZ * (-(6/10)) else b.velZ
  let landing : Option ℚ := match env.platformRayTop px b.posY pz with
    | some top =>
      if nextY ≤ top + 1/2 then some (top + 1/2)
      else if nextY ≤ 1/2 then some (1/2) else none
    | none => if nextY ≤ 1/2 then some (1/2) else none
  match landing with
  | some ly =>
    if (match delay with | none => true | some d => decide (d ≤ 0)) then
      Sum.inl { posX := px, posY := ly, posZ := pz, collected := false,
                timestamp := b.timestamp, lifespan := b.lifespan }
    else
      Sum.inr { b with posX := px, posY := ly, posZ := pz,
                       velX := 0, velY := 0, velZ := 0, collectionDelay := delay }
  | none =>
    Sum.inr { b with posX := px, posY := nextY, posZ := pz,
                     velX := vx, velY := vy, velZ := vz, collectionDelay := delay }

/-- The ejected-bone physics loop: collected bones are dropped, landed
bones past their grace delay are appended to the settled list. -/
def dropPhysicsPhase (env : StageEnv) (dt : ℚ) (bones : List BoneState)
    (dropping : List DropBone) : List BoneState × List DropBone :=
  dropping.foldl
    (fun acc b =>
      if b.collected then acc
      else match dropPhysicsStep env dt b with
        | Sum.inl settled => (acc.1 ++ [settled], acc.2)
        | Sum.inr kept => (acc.1, acc.2 ++ [kept]))
    (bones, [])

/-- The duplicated win re-check performed right after `collectBone` in the
pickup loop. -/
def winRecheck (c : CharState) : CharState :=
  if c.bones ≥ 100 then { c with bones := 100, hasWon := true } else c

/-- One player sweeping the settled-bone list: every uncollected bone
whose box intersects the player's box is collected. -/
def collectSettled (env : StageEnv) : CharState → List BoneState →
    CharState × List BoneState
  | p, [] => (p, [])
  | p, b :: rest =>
    if ¬b.collected ∧ Box.overlap (env.playerBox p) (env.boneBoxAt b.posX b.posY b.posZ) then
      let p1 := winRecheck (collectBone p)
      let r := collectSettled env p1 rest
      (r.1, { b with collected := true } :: r.2)
    else
      let r := collectSettled env p rest
      (r.1, b :: r.2)

/-- One player sweeping the ejected-bone list: same test, additionally
gated by the collection grace delay. -/
def collectDropping (env : StageEnv) : CharState → List DropBone →
    CharState × List DropBone
  | p, [] => (p, [])
  | p, b :: rest =>
    if ¬b.collected && (match b.collectionDelay with
        | none => true
        | some d => decide (d ≤ 0)) &&
        Box.overlap (env.playerBox p) (env.boneBoxAt b.posX b.posY b.posZ) then
      let p1 := winRecheck (collectBone p)
      let r := collectDropping env p1 rest
      (r.1, { b with collected := true } :: r.2)
    else
      let r := collectDropping env p rest
      (r.1, b :: r.2)

/-- The pickup-resolution loop of `updateBones`: players in registration
order; only non-dying, non-hit-flashing, non-knockback players collect.
The spatial grid is a lookup optimization — candidates are modelled as
the full bone lists, settled first. -/
def pickupPhase (env : StageEnv) : List CharState → List BoneState → List DropBone →
    List CharState × List BoneState × List DropBone
  | [], bs, ds => ([], bs, ds)
  | p :: rest, bs, ds =>
    if ¬p.isDying ∧ ¬p.isHit ∧ p.knockbackTime ≤ 0 then
      let r1 := collectSettled env p bs
      let r2 := collectDropping env r1.1 ds
      let r := pickupPhase env rest r1.2 r2.2
      (r2.1 :: r.1, r.2)
    else
      let r := pickupPhase env rest bs ds
      (p :: r.1, r.2)

/-- `Stage.updateBones`: expiry sweep, ejected-bone physics, then pickup
resolution against the players' current (pre-movement) positions. -/
def updateBones (env : StageEnv) (dt : ℚ) (players : List CharState)
    (bones : List BoneState) (dropping : List DropBone) :
    List CharState × List BoneState × List DropBone :=
  let bs := bones.map (expireSettled env.now)
  let ds := dropping.map (expireDropping env.now)
  let phys := dropPhysicsPhase env dt bs ds
  pickupPhase env players phys.1 phys.2

/-- The bone meshes handed to `Character.update` as collidables (bone
meshes are `THREE.Group`s). -/
def boneObstacles (env : StageEnv) (bones : List BoneState) (dropping : List DropBone) :
    List Collidable :=
  (bones.filter fun b => ¬b.collected).map
      (fun b => Collidable.mk .group (env.boneBoxAt b.posX b.posY b.posZ)) ++
    (dropping.filter fun b => ¬b.collected).map
      (fun b => Collidable.mk .group (env.boneBoxAt b.posX b.posY b.posZ))

/-- The player-update loop: players tick in registration order. A dying
player receives an empty collidable list; everyone else collides with the
static obstacles, every other living player's current box (earlier
players already moved this tick) and the bone meshes. -/
def movePhase (env : StageEnv) (keys : Keys) (dt : ℚ) (boneObs : List Collidable) :
    List CharState → List CharState → ℕ → List CharState
  | done, [], _ => done
  | done, p :: rest, i =>
    let p1 := if p.isDying then
        charUpdate (mkMoveEnv env []) keys dt (env.steerFor i) p
      else
        let others := (done ++ rest).filter fun q => ¬q.isDying
        let obs := env.staticObstacles ++
          others.map (fun q => Collidable.mk .group (env.playerBox q)) ++ boneObs
        charUpdate (mkMoveEnv env obs) keys dt (env.steerFor i) p
    movePhase env keys dt boneObs (done ++ [p1]) rest (i + 1)

/-- `Stage.createBonePile`: `count` ejected bones at the victim position
(initial height `BONE_INITIAL_Y = 1.5`), lifespan 10 s, grace delay 0.5 s,
ring-distributed velocities (`(cos θ, sin θ)` and the radius draw come
from the environment), vertical speed `baseVelocity × 2 = 10`. -/
def createBonePile (env : StageEnv) (px pz : ℚ) (count : ℤ) : List DropBone :=
  (List.range count.toNat).map fun i =>
    let dir := env.pileDir count.toNat i
    let radius := env.pileRadius i
    { posX := px, posY := 3/2, posZ := pz,
      velX := dir.1 * 5 * radius, velY := 10, velZ := dir.2 * 5 * radius,
      collected := false, timestamp := env.now, lifespan := some 10000,
      collectionDelay := some (1/2) }

/-- One combat iteration: if the player at index `i` has an active bite
window, find the first other non-dying, non-hit, non-knockback player
whose (post-movement) box intersects the bite box, resolve the hit,
append the explosion pile, and force-close the attacker's bite window. -/
def combatAt (env : StageEnv) (i : ℕ) (st : List CharState × List DropBone) :
    List CharState × List DropBone :=
  match st.1.get? i with
  | none => st
  | some attacker =>
    if attacker.isBiting ∧ attacker.biteTimer > 0 then
      match st.1.enum.find? (fun x => x.1 ≠ i ∧ ¬x.2.isDying ∧ ¬x.2.isHit ∧
          x.2.knockbackTime ≤ 0 ∧ Box.overlap (env.biteBox attacker) (env.playerBox x.2)) with
      | some jv =>
        let res := handleBiteCollision attacker jv.2 (env.biteRand i) (env.kdir i).1 (env.kdir i).2
        let pile := createBonePile env jv.2.posX jv.2.posZ res.2
        (((st.1.set jv.1 res.1).set i { attacker with biteTimer := 0 }), st.2 ++ pile)
      | none => st
    else st

/-- The combat loop over all player indices in registration order. -/
def combatLoop (env : StageEnv) : ℕ → ℕ → List CharState × List DropBone →
    List CharState × List DropBone
  | 0, _, st => st
  | n + 1, i, st => combatLoop env n (i + 1) (combatAt env i st)

def combatPhase (env : StageEnv) (players : List CharState) (dropping : List DropBone) :
    List CharState × List DropBone :=
  combatLoop env players.length 0 (players, dropping)

/-- `Stage.update(deltaTime, keys)`: win freeze, bone filtering and
deficit spawning, `updateBones` (expiry + ejected physics + pickup
resolution), the player-update loop, the dying sweep (removed players are
parked for the deferred respawn), then bite-combat resolution. Nametag
projection, TWEEN updates and bone spin are rendering-only. -/
def stageUpdate (env : StageEnv) (dt : ℚ) (keys : Keys) (s : StageState) : StageState :=
  if s.players.any (fun p => p.hasWon) then s
  else
    let bones1 := s.bones.filter fun b => ¬b.collected
    let dropping1 := s.droppingBones.filter fun b => ¬b.collected
    let bones2 := spawnBonesPhase env bones1
    let ub := updateBones env dt s.players bones2 dropping1
    let bObs := boneObstacles env ub.2.1 ub.2.2
    let moved := movePhase env keys dt bObs [] ub.1 0
    let alive := moved.filter fun p => ¬(p.isDying ∧ p.dyingTimer ≤ 0)
    let dead := moved.filter fun p => p.isDying ∧ p.dyingTimer ≤ 0
    let cb := combatPhase env alive ub.2.2
    { players := cb.1, bones := ub.2.1, droppingBones := cb.2,
      pendingRespawns := s.pendingRespawns ++ dead }

/-- The tick as the specification describes its ordering: agent updates
first (registration order), and *then* all pickup resolution and all
combat resolution, both against this tick's post-movement positions.
Built from the same phase functions as `stageUpdate`, with the pickup
resolution moved after the movement loop. -/
def specOrderTick (env : StageEnv) (dt : ℚ) (keys : Keys) (s : StageState) : StageState :=
  if s.players.any (fun p => p.hasWon) then s
  else
    let bones1 := s.bones.filter fun b => ¬b.collected
    let dropping1 := s.droppingBones.filter fun b => ¬b.collected
    let bones2 := spawnBonesPhase env bones1
    let bs := bones2.map (expireSettled env.now)
    let ds := dropping1.map (expireDropping env.now)
    let phys := dropPhysicsPhase env dt bs ds
    let bObs := boneObstacles env phys.1 phys.2
    let moved := movePhase env keys dt bObs [] s.players 0
    let pk := pickupPhase env moved phys.1 phys.2
    let alive := pk.1.filter fun p => ¬(p.isDying ∧ p.dyingTimer ≤ 0)
    let dead := pk.1.filter fun p => p.isDying ∧ p.dyingTimer ≤ 0
    let cb := combatPhase env alive pk.2.2
    { players := cb.1, bones := pk.2.1, droppingBones := cb.2,
      pendingRespawns := s.pendingRespawns ++ dead }

/-- `Stage.reset`: clear every bone, zero every player's progression and
combat state, reassign fresh safe positions (the rejection-sampled safe
locations are drawn from the environment) and reseed the initial bone
population. -/
def stageReset (env : StageEnv) (s : StageState) : StageState :=
  { players := s.players.enum.map fun x =>
      let p := env.spawnPos x.1
      stageResetChar x.2 p.1 p.2.1 p.2.2
    bones := (List.range TARGET_BONES).map fun k =>
      let p := env.spawnPos k
      { posX := p.1, posY := p.2.1, posZ := p.2.2,
        collected := false, timestamp := env.now, lifespan := none }
    droppingBones := []
    pendingRespawns := s.pendingRespawns }

/-! ### AI target selection (`AIController.update` decision trees) -/

/-- A scanned rival as the decision tree sees it: resource count and
horizontal distance. -/
structure RivalInfo where
  bones : ℤ
  distance : ℚ
  deriving DecidableEq, Repr

/-- The scanned leader candidate: its resource count, its effective
distance (reduced by the behind-attack bonus) and the vulnerability
verdict (facing away, under pack attack, or airborne). -/
structure LeaderInfo where
  bones : ℤ
  effDistance : ℚ
  isVulnerable : Bool
  deriving DecidableEq, Repr

/-- The per-tick decision context computed by the scan at the top of
`AIController.update`: the revenge candidate (recorded attacker within
revenge distance), the leader candidate (within leader-attack distance),
the nearest and weakest rivals, whether an in-range bone exists, the
agent's own count and (richer variant) whether the agent ranks in the
bottom five. -/
structure AICtx where
  myBones : ℤ
  revengeTarget : Option RivalInfo
  leaderTarget : Option LeaderInfo
  nearestPlayer : Option RivalInfo
  weakestPlayer : Option RivalInfo
  hasNearestBone : Bool
  isBottomFive : Bool
  deriving DecidableEq, Repr

/-- Which decision-tree branch fired. -/
inductive AIRule where
  | revenge
  | leader
  | flee
  | attackWeakest
  | huntBone
  | idle
  deriving DecidableEq, Repr

/-- Richer variant, revenge gate: a revenge target exists and the agent
holds at least `MINIMUM_SAFE_BONES = 5`. -/
def richRevengeCond (ctx : AICtx) : Bool :=
  ctx.revengeTarget.isSome && decide (ctx.myBones ≥ 5)

/-- Richer variant, leader gate: (resource-safe and the leader is
vulnerable) or the leader holds more than twice the agent's count. -/
def richLeaderCond (ctx : AICtx) : Bool :=
  match ctx.leaderTarget with
  | some l => (decide (ctx.myBones ≥ 5) && l.isVulnerable) || decide (l.bones > ctx.myBones * 2)
  | none => false

/-- Bottom-five flee gate: nearest rival within `FLEE_DISTANCE × 1.2` and
holding more than `0.9 ×` the agent's count. -/
def bottomFleeCond (ctx : AICtx) : Bool :=
  match ctx.nearestPlayer with
  | some np => decide (np.distance < 20 * (12/10)) &&
      decide ((np.bones : ℚ) > (ctx.myBones : ℚ) * (9/10))
  | none => false

/-- Bottom-five `isSafeToCollect`: no rival, or rival beyond
`CHASE_DISTANCE × 1.2`, or the agent holds at least `0.7 ×` its count. -/
def bottomSafeCond (ctx : AICtx) : Bool :=
  match ctx.nearestPlayer with
  | some np => decide (np.distance > 35 * (12/10)) ||
      decide ((ctx.myBones : ℚ) ≥ (np.bones : ℚ) * (7/10))
  | none => true

/-- Bottom-five attack gate: a clear advantage (`≥ 1.4 ×`) within a
shortened chase distance. -/
def bottomAttackCond (ctx : AICtx) : Bool :=
  match ctx.weakestPlayer with
  | some wp => decide ((ctx.myBones : ℚ) ≥ (wp.bones : ℚ) * (14/10)) &&
      decide (wp.distance < 35 * (8/10))
  | none => false

/-- Top-player `isSafeToCollect`: rival beyond `CHASE_DISTANCE × 0.8` or
the agent holds at least `0.7 ×` its count. -/
def topSafeCond (ctx : AICtx) : Bool :=
  match ctx.nearestPlayer with
  | some np => decide (np.distance > 35 * (8/10)) ||
      decide ((ctx.myBones : ℚ) ≥ (np.bones : ℚ) * (7/10))
  | none => true

/-- Top-player flee gate: nearest rival within `FLEE_DISTANCE` and either
the agent holds under `0.8 ×` the rival's count, or the agent holds over
20 and the rival holds over `0.9 ×` the agent's count. -/
def topFleeCond (ctx : AICtx) : Bool :=
  match ctx.nearestPlayer with
  | some np => decide (np.distance < 20) &&
      (decide ((ctx.myBones : ℚ) < (np.bones : ℚ) * (8/10)) ||
        (decide (ctx.myBones > 20) && decide ((np.bones : ℚ) > (ctx.myBones : ℚ) * (9/10))))
  | none => false

/-- Top-player attack gate. -/
def topAttackCond (ctx : AICtx) : Bool :=
  match ctx.weakestPlayer with
  | some wp => decide ((ctx.myBones : ℚ) ≥ (wp.bones : ℚ) * (12/10)) ||
      (decide (ctx.myBones ≥ 15) && decide ((wp.bones : ℚ) < (ctx.myBones : ℚ) * (9/10)))
  | none => false

/-- The richer decision tree (`AIController.update`, first variant):
revenge, then leader-targeting, then a rank split — bottom-five agents
check flee, then bone hunting (an in-range bone that fails the safety
check yields *no* target), then attack; everyone else checks bone hunting
*first*, then flee, then attack. -/
def aiDecideRich (ctx : AICtx) : AIRule :=
  if richRevengeCond ctx then .revenge
  else if richLeaderCond ctx then .leader
  else if ctx.isBottomFive then
    if bottomFleeCond ctx then .flee
    else if ctx.hasNearestBone then
      (if bottomSafeCond ctx then .huntBone else .idle)
    else if bottomAttackCond ctx then .attackWeakest
    else .idle
  else
    if ctx.hasNearestBone then
      (if topSafeCond ctx then .huntBone else .idle)
    else if topFleeCond ctx then .flee
    else if topAttackCond ctx then .attackWeakest
    else .idle

/-- Simple-variant flee gate: nearest rival within `FLEE_DISTANCE = 15`
and the agent under `0.7 ×` its count. -/
def simpleFleeCond (ctx : AICtx) : Bool :=
  match ctx.nearestPlayer with
  | some np => decide (np.distance < 15) &&
      decide ((ctx.myBones : ℚ) < (np.bones : ℚ) * (7/10))
  | none => false

/-- The simple decision tree (`AIController.update`, second variant):
revenge, flee, attack-weakest, bone hunting, idle. -/
def aiDecideSimple (ctx : AICtx) : AIRule :=
  if ctx.revengeTarget.isSome then .revenge
  else if simpleFleeCond ctx then .flee
  else if ctx.weakestPlayer.isSome then .attackWeakest
  else if ctx.hasNearestBone then .huntBone
  else .idle

/-- The flee gate as the rank-appropriate code condition (used to state
the claimed strict priority order over the richer tree). -/
def richFleeMatch (ctx : AICtx) : Bool :=
  if ctx.isBottomFive then bottomFleeCond ctx else topFleeCond ctx

def richAttackMatch (ctx : AICtx) : Bool :=
  if ctx.isBottomFive then bottomAttackCond ctx else topAttackCond ctx

def richHuntMatch (ctx : AICtx) : Bool :=
  ctx.hasNearestBone &&
    (if ctx.isBottomFive then bottomSafeCond ctx else topSafeCond ctx)

/-- The claimed selection policy, stated from the specification: the
first matching rule in the strict order revenge, leader-targeting, flee,
attack-weakest, resource hunting, idle — with each rule's matching
condition taken verbatim from the code. -/
def claimedSelectRich (ctx : AICtx) : AIRule :=
  if richRevengeCond ctx then .revenge
  else if richLeaderCond ctx then .leader
  else if richFleeMatch ctx then .flee
  else if richAttackMatch ctx then .attackWeakest
  else if richHuntMatch ctx then .huntBone
  else .idle


/-! ### Auxiliary definitions for the claim theorems: closed-form
collect-sequence state, the amended tick ordering, and the concrete
environments and states used by counterexamples and witnesses. -/

/-- Closed form of the character state after `n` `collectBone` calls from
spawn: the count clamps at 100, while the size — recomputed from the
pre-clamp count — saturates one growth step later, at `MIN_SIZE + 101 ×
GROWTH_PER_BONE`. -/
def collectSeqState (ai : Bool) (ci : ℕ) (nm : String) (rot : ℚ) (n : ℕ) : CharState :=
  { spawnChar ai ci nm rot with
      bones := min (n : ℤ) 100
      size := MIN_SIZE + ((min (n : ℤ) 101 : ℤ) : ℚ) * GROWTH_PER_BONE
      hasWon := decide (100 ≤ n) }

/-- Concrete AI agent for the C6 counterexample: it reported movement
last tick (`isMoving = true`) and now attempts a steering move that is
blocked by a wall-sized obstacle. -/
def c6Char : CharState := { spawnChar true 1 "Rex" 0 with isMoving := true }

def c6Env : MoveEnv :=
  ⟨[⟨.group, ⟨-100, -100, -100, 100, 100, 100⟩⟩],
   fun _ _ => 0, fun _ _ => 0, fun _ => 0, fun _ => 0⟩

def c6Steer : AISteer := ⟨some (1, 0), false, false, false, false, false⟩

/-- C6 witness: a player agent pressing `w` against a blocking wall. -/
def c6PChar : CharState := spawnChar false 0 "Player" 0

def c6PKeys : Keys := { noKeys with w := true }

/-- C8 counterexample context: a non-bottom-five agent with 0 bones, an
in-range bone, and a stronger rival at distance 10 (inside the flee
distance). The flee rule matches, yet the code reaches the bone-hunting
branch first, fails its safety check, and idles. -/
def c8Ctx : AICtx :=
  { myBones := 0, revengeTarget := none, leaderTarget := none,
    nearestPlayer := some ⟨10, 10⟩, weakestPlayer := none, hasNearestBone := true,
    isBottomFive := false }

/-- C8 witness: a context with a recorded attacker and a safe resource
floor selects revenge. -/
def c8RevCtx : AICtx :=
  { myBones := 6, revengeTarget := some ⟨2, 3⟩, leaderTarget := none,
    nearestPlayer := some ⟨2, 3⟩, weakestPlayer := none, hasNearestBone := true,
    isBottomFive := false }

/-- The tick as the amended ordering describes it: the pickup sweep runs
against the previous movement's positions *before* this tick's movement
loop, agents then update in registration order, and combat resolves last
against this tick's post-movement positions. -/
def amendedOrderTick (env : StageEnv) (dt : ℚ) (keys : Keys) (s : StageState) : StageState :=
  if s.players.any (fun p => p.hasWon) then s
  else
    let bones1 := s.bones.filter fun b => ¬b.collected
    let dropping1 := s.droppingBones.filter fun b => ¬b.collected
    let bones2 := spawnBonesPhase env bones1
    let bs := bones2.map (expireSettled env.now)
    let ds := dropping1.map (expireDropping env.now)
    let phys := dropPhysicsPhase env dt bs ds
    let pk := pickupPhase env s.players phys.1 phys.2
    let bObs := boneObstacles env pk.2.1 pk.2.2
    let moved := movePhase env keys dt bObs [] pk.1 0
    let alive := moved.filter fun p => ¬(p.isDying ∧ p.dyingTimer ≤ 0)
    let dead := moved.filter fun p => p.isDying ∧ p.dyingTimer ≤ 0
    let cb := combatPhase env alive pk.2.2
    { players := cb.1, bones := pk.2.1, droppingBones := cb.2,
      pendingRespawns := s.pendingRespawns ++ dead }

/-- Concrete frozen stage for the C4 witness. -/
def c4Env : StageEnv :=
  { now := 0, spawnPos := fun _ => (60, 1/2, 60)
    playerBox := fun c => ⟨c.posX - 2/5, c.posY - 3/10, c.posZ - 1,
      c.posX + 2/5, c.posY + 3/10, c.posZ + 1⟩
    boneBoxAt := fun x y z => ⟨x - 3/20, y - 3/20, z - 3/20, x + 3/20, y + 3/20, z + 3/20⟩
    biteBox := fun c => ⟨c.posX, c.posY, c.posZ, c.posX, c.posY, c.posZ⟩
    platformRayTop := fun _ _ _ => none
    staticObstacles := []
    rotOf := fun _ _ => 0, aiRotOf := fun _ _ => 0, sinQ := fun _ => 0, cosQ := fun _ => 0
    steerFor := fun _ => ⟨none, false, false, false, false, false⟩
    biteRand := fun _ => 0, kdir := fun _ => (1, 0)
    pileDir := fun _ _ => (1, 0), pileRadius := fun _ => 1 }

def c4Stage : StageState :=
  { players := [{ spawnChar false 0 "Winner" 0 with bones := 100, hasWon := true }]
    bones := [], droppingBones := [], pendingRespawns := [] }

def c9Player : CharState := spawnChar false 0 "Player" 0

/-- A permanent bone just behind the player (outside the movement
collision box, inside the pickup box). -/
def c9Bone : BoneState :=
  { posX := 0, posY := 1/2, posZ := 11/10, collected := false, timestamp := 0, lifespan := none }

def c9Stage : StageState :=
  { players := [c9Player], bones := [c9Bone], droppingBones := [], pendingRespawns := [] }

def c9Keys : Keys := { noKeys with w := true }

/-! ### Frame and helper lemmas, and the claim theorems -/

theorem boundsClamp_hasWon (c : CharState) : (boundsClamp c).hasWon = c.hasWon := rfl

theorem fallAndGravity_hasWon (obs : List Collidable) (dt : ℚ) (c : CharState) :
    (fallAndGravity obs dt c).hasWon = c.hasWon := by
  unfold fallAndGravity
  dsimp only
  split_ifs <;> rfl

theorem wasdMove_hasWon (env : MoveEnv) (keys : Keys) (c : CharState) :
    (wasdMove env keys c).hasWon = c.hasWon := by
  unfold wasdMove
  dsimp only
  split_ifs <;> rfl

theorem arrowAxisMove_hasWon (env : MoveEnv) (sign : ℚ) (c : CharState) :
    (arrowAxisMove env sign c).hasWon = c.hasWon := by
  unfold arrowAxisMove
  dsimp only
  split_ifs <;> rfl

theorem playerApplyMove_hasWon (env : MoveEnv) (keys : Keys) (dt : ℚ) (c : CharState) :
    (playerApplyMove env keys dt c).hasWon = c.hasWon := by
  unfold playerApplyMove
  dsimp only
  split_ifs <;>
    simp only [boundsClamp_hasWon, fallAndGravity_hasWon, arrowAxisMove_hasWon, wasdMove_hasWon]

theorem aiTargetMove_hasWon (env : MoveEnv) (steer : AISteer) (dt : ℚ) (dir : ℚ × ℚ)
    (c : CharState) : (aiTargetMove env steer dt dir c).hasWon = c.hasWon := by
  unfold aiTargetMove
  dsimp only
  split_ifs <;> rfl

theorem aiApplyMove_hasWon (env : MoveEnv) (steer : AISteer) (dt : ℚ) (c : CharState) :
    (aiApplyMove env steer dt c).hasWon = c.hasWon := by
  unfold aiApplyMove
  dsimp only
  rcases steer.target with _ | dir <;>
    split_ifs <;>
      simp only [boundsClamp_hasWon, aiTargetMove_hasWon, fallAndGravity_hasWon]

theorem charUpdate_hasWon (env : MoveEnv) (keys : Keys) (dt : ℚ) (steer : AISteer)
    (c : CharState) : (charUpdate env keys dt steer c).hasWon = c.hasWon := by
  unfold charUpdate
  dsimp only
  by_cases h1 : c.isDying = true
  · rw [if_pos h1]
  · rw [if_neg h1]
    simp only [apply_ite CharState.hasWon, playerApplyMove_hasWon, aiApplyMove_hasWon, ite_self]

/-- C3: once `resourceCount` would reach the win threshold (100), it is
clamped to exactly 100 and `hasWon` becomes true; `hasWon` then remains
true under collecting, dropping, knockback and the character tick, until
`respawn()` or `Stage.reset()` sets it back to false. -/
theorem c3_win_clamp_and_persistence :
    (∀ c : CharState, 100 ≤ c.bones + 1 →
      (collectBone c).bones = 100 ∧ (collectBone c).hasWon = true) ∧
    (∀ c : CharState, c.hasWon = true →
      (collectBone c).hasWon = true ∧
      (∀ req, (dropSomeBones c req).1.hasWon = true) ∧
      (dropAllBones c).1.hasWon = true ∧
      (∀ m dx dz, (applyKnockback c m dx dz).hasWon = true) ∧
      (∀ env keys dt steer, (charUpdate env keys dt steer c).hasWon = true)) ∧
    (∀ c : CharState, ∀ rot : ℚ, (respawn c rot).hasWon = false) ∧
    (∀ env : StageEnv, ∀ s : StageState, ∀ p ∈ (stageReset env s).players, p.hasWon = false) := by
  refine ⟨fun c h => ?_, fun c h => ⟨?_, fun req => ?_, ?_, fun m dx dz => h, fun env keys dt steer => ?_⟩, fun c rot => rfl, fun env s p hp => ?_⟩
  · unfold collectBone
    dsimp only
    rw [if_pos h]
    exact ⟨rfl, rfl⟩
  · unfold collectBone
    dsimp only
    split_ifs <;> simp [h]
  · unfold dropSomeBones
    dsimp only
    split_ifs <;> simp [h]
  · unfold dropAllBones
    split_ifs <;> simpa using h
  · rw [charUpdate_hasWon]
    exact h
  · simp only [stageReset, List.mem_map] at hp
    obtain ⟨x, _, rfl⟩ := hp
    rfl

/-- C3 witness at a concrete agent. -/
theorem c3_witness :
    (100 : ℤ) ≤ { spawnChar false 0 "Player" 0 with bones := 99 : CharState }.bones + 1 ∧
    (collectBone { spawnChar false 0 "Player" 0 with bones := 99 }).bones = 100 ∧
    (collectBone { spawnChar false 0 "Player" 0 with bones := 99 }).hasWon = true :=
  ⟨by decide, (c3_win_clamp_and_persistence.1 _ (by decide)).1,
    (c3_win_clamp_and_persistence.1 _ (by decide)).2⟩

/-- C7: `respawn()` resets resourceCount, size, the combat timers and
`hasWon` to spawn defaults regardless of the prior state, and preserves
identity (name, color index, AI flag). -/
theorem c7_respawn_resets (c : CharState) (rot : ℚ) :
    (respawn c rot).bones = 0 ∧ (respawn c rot).size = MIN_SIZE ∧
    (respawn c rot).biteTimer = 0 ∧ (respawn c rot).hitTimer = 0 ∧
    (respawn c rot).knockbackTime = 0 ∧ (respawn c rot).dyingTimer = 0 ∧
    (respawn c rot).hasWon = false ∧ (respawn c rot).isDying = false ∧
    (respawn c rot).isBiting = false ∧ (respawn c rot).isHit = false ∧
    (respawn c rot).isMoving = false ∧
    (respawn c rot).velX = 0 ∧ (respawn c rot).velZ = 0 ∧
    (respawn c rot).name = c.name ∧ (respawn c rot).colorIndex = c.colorIndex ∧
    (respawn c rot).isAI = c.isAI :=
  ⟨rfl, rfl, rfl, rfl, rfl, rfl, rfl, rfl, rfl, rfl, rfl, rfl, rfl, rfl, rfl, rfl⟩

/-- C10 counterexample: `dropSomeBones(0)` on an agent holding 5 bones
removes 3 (the `||` default), not `min(0, 5) = 0` as the claim states. -/
theorem c10_counterexample :
    (dropSomeBones { spawnChar false 0 "Player" 0 with bones := 5 } (some 0)).2 = 3 ∧
    ¬((dropSomeBones { spawnChar false 0 "Player" 0 with bones := 5 } (some 0)).2 = min 0 5) := by
  constructor
  · decide
  · decide

/-- C10 amended: resourceCount stays a non-negative integer under every
operation; `collectBone` increments by 1 clamped at 100; for a requested
count ≥ 1 `dropSomeBones` removes exactly `min(requested, held)` and
returns it (never more than held), while a requested count of 0 (or an
omitted argument) falls back to the default per-hit drop of 3;
`dropAllBones` zeroes the count and returns the previous value; `respawn`
zeroes it. -/
theorem c10_amended :
    (∀ c : CharState, 0 ≤ c.bones →
      (collectBone c).bones = min (c.bones + 1) 100 ∧ 0 ≤ (collectBone c).bones) ∧
    (∀ c : CharState, ∀ req : ℤ, 0 ≤ c.bones → 1 ≤ req →
      (dropSomeBones c (some req)).2 = min req c.bones ∧
      (dropSomeBones c (some req)).1.bones = c.bones - min req c.bones ∧
      (dropSomeBones c (some req)).2 ≤ c.bones ∧
      0 ≤ (dropSomeBones c (some req)).1.bones) ∧
    (∀ c : CharState, 0 ≤ c.bones →
      (dropSomeBones c (some 0)).2 = min BONES_TO_DROP c.bones ∧
      (dropSomeBones c none).2 = min BONES_TO_DROP c.bones) ∧
    (∀ c : CharState, 0 ≤ c.bones →
      (dropAllBones c).1.bones = 0 ∧ (dropAllBones c).2 = c.bones) ∧
    (∀ c : CharState, ∀ rot : ℚ, (respawn c rot).bones = 0) := by
  refine ⟨fun c h => ?_, fun c req h hreq => ?_, fun c h => ?_, fun c h => ?_,
    fun c rot => rfl⟩
  · unfold collectBone
    dsimp only
    split_ifs with h1 <;> constructor <;> simp only [] <;> omega
  · unfold dropSomeBones
    dsimp only
    by_cases h1 : c.bones ≤ 0
    · rw [if_pos h1]
      refine ⟨?_, ?_, ?_, ?_⟩ <;> (dsimp only; omega)
    · rw [if_neg h1]
      have hne : ¬req = 0 := by omega
      rw [if_neg hne]
      refine ⟨rfl, ?_, ?_, ?_⟩ <;> (dsimp only; omega)
  · constructor
    · simp only [dropSomeBones, BONES_TO_DROP]
      split_ifs <;> omega
    · simp only [dropSomeBones, BONES_TO_DROP]
      split_ifs <;> omega
  · unfold dropAllBones
    by_cases h1 : c.bones ≤ 0
    · rw [if_pos h1]
      exact ⟨by dsimp only; omega, by dsimp only; omega⟩
    · rw [if_neg h1]
      exact ⟨rfl, rfl⟩

/-- C10 witness at a concrete agent and requested count. -/
theorem c10_amended_witness :
    ((0:ℤ) ≤ ({ spawnChar false 0 "Player" 0 with bones := 7 : CharState }).bones ∧ (1:ℤ) ≤ 4) ∧
    ((dropSomeBones { spawnChar false 0 "Player" 0 with bones := 7 } (some 4)).2
        = min 4 ({ spawnChar false 0 "Player" 0 with bones := 7 : CharState }).bones ∧
      (dropSomeBones { spawnChar false 0 "Player" 0 with bones := 7 } (some 4)).1.bones
        = ({ spawnChar false 0 "Player" 0 with bones := 7 : CharState }).bones - min 4 ({ spawnChar false 0 "Player" 0 with bones := 7 : CharState }).bones ∧
      (dropSomeBones { spawnChar false 0 "Player" 0 with bones := 7 } (some 4)).2
        ≤ ({ spawnChar false 0 "Player" 0 with bones := 7 : CharState }).bones ∧
      (0:ℤ) ≤ (dropSomeBones { spawnChar false 0 "Player" 0 with bones := 7 } (some 4)).1.bones) :=
  ⟨⟨by decide, by decide⟩,
    c10_amended.2.1 { spawnChar false 0 "Player" 0 with bones := 7 } 4 (by decide) (by decide)⟩

theorem collectBone_seq_step (ai : Bool) (ci : ℕ) (nm : String) (rot : ℚ) (n : ℕ) :
    collectBone (collectSeqState ai ci nm rot n) = collectSeqState ai ci nm rot (n + 1) := by
  unfold collectBone collectSeqState spawnChar
  dsimp only
  by_cases h : min (n:ℤ) 100 + 1 ≥ 100
  · rw [if_pos h]
    have h99 : 99 ≤ n := by omega
    simp only [CharState.mk.injEq, and_true, true_and]
    refine ⟨?_, ?_, ?_⟩
    · -- size
      by_cases hn : n ≤ 99
      · have hn' : n = 99 := by omega
        subst hn'
        norm_num [MIN_SIZE, MAX_SIZE, GROWTH_PER_BONE]
      · have e1 : min (n:ℤ) 100 = 100 := by omega
        rw [e1]
        push_cast
        have e2 : min ((n:ℚ) + 1) 101 = 101 := by
          have h100 : (100:ℚ) ≤ (n:ℚ) := by exact_mod_cast (by omega : (100:ℕ) ≤ n)
          rw [min_eq_right (by linarith)]
        rw [e2, MIN_SIZE, MAX_SIZE, GROWTH_PER_BONE, min_eq_right (by norm_num)]
    · -- bones
      push_cast
      omega
    · -- hasWon
      simp [h99]
  · rw [if_neg h]
    have h98 : n ≤ 98 := by omega
    simp only [CharState.mk.injEq, and_true, true_and]
    refine ⟨?_, ?_, ?_⟩
    · have e1 : min (n:ℤ) 100 = (n:ℤ) := by omega
      rw [e1]
      push_cast
      have e2 : min ((n:ℚ) + 1) 101 = (n:ℚ) + 1 := by
        have h98Q : (n:ℚ) ≤ 98 := by exact_mod_cast h98
        rw [min_eq_left (by linarith)]
      rw [e2]
      have hle : MIN_SIZE + ((n:ℚ) + 1) * GROWTH_PER_BONE ≤ MAX_SIZE := by
        have : ((n:ℚ) + 1) ≤ 99 := by
          have : ((n:ℚ)) ≤ 98 := by exact_mod_cast h98
          linarith
        rw [MIN_SIZE, MAX_SIZE, GROWTH_PER_BONE]
        nlinarith
      rw [min_eq_right hle]
    · push_cast
      omega
    · have h1 : ¬(100 ≤ n) := by omega
      have h2 : ¬(100 ≤ n + 1) := by omega
      simp [h1, h2]

theorem collectBone_iterate (ai : Bool) (ci : ℕ) (nm : String) (rot : ℚ) :
    ∀ n, collectBone^[n] (spawnChar ai ci nm rot) = collectSeqState ai ci nm rot n
  | 0 => by
    unfold collectSeqState spawnChar
    simp only [Function.iterate_zero, id_eq, CharState.mk.injEq, and_true, true_and]
    norm_num [MIN_SIZE, GROWTH_PER_BONE]
  | n + 1 => by
    rw [Function.iterate_succ_apply', collectBone_iterate ai ci nm rot n,
      collectBone_seq_step]

/-- C5 counterexample: after 101 `collectBone` calls from spawn the count
is clamped at 100, but the size — recomputed from the transient pre-clamp
count 101 — is `1 + 101 × 0.021 = 3.121`, not the claimed
`clamp(MIN_SIZE + 100 × GROWTH_PER_BONE) = 3.1`. -/
theorem c5_counterexample :
    (collectBone^[101] (spawnChar false 0 "Player" 0)).bones = 100 ∧
    (collectBone^[101] (spawnChar false 0 "Player" 0)).size ≠
      min MAX_SIZE (max MIN_SIZE (MIN_SIZE +
        (((collectBone^[101] (spawnChar false 0 "Player" 0)).bones : ℤ) : ℚ) * GROWTH_PER_BONE)) := by
  rw [collectBone_iterate]
  unfold collectSeqState
  dsimp only
  constructor
  · norm_num
  · rw [show min ((101:ℕ):ℤ) 100 = 100 by norm_num,
      show min ((101:ℕ):ℤ) 101 = 101 by norm_num]
    rw [MIN_SIZE, MAX_SIZE, GROWTH_PER_BONE]
    norm_num

/-- C5 amended: along every `collectBone` sequence the size equals
`MIN_SIZE + min(n, 101) × GROWTH_PER_BONE`; it matches the claimed
clamp-of-count formula for the first 100 calls, is always within
`[MIN_SIZE, MAX_SIZE]`, and is non-decreasing; and the dropping /
respawning operations recompute size from the updated count (a collect on
an agent already at the threshold recomputes it from the transient
pre-clamp count instead). -/
theorem c5_amended (ai : Bool) (ci : ℕ) (nm : String) (rot : ℚ) (n m : ℕ) (hmn : m ≤ n) :
    ((collectBone^[n] (spawnChar ai ci nm rot)).size
        = MIN_SIZE + ((min (n:ℤ) 101 : ℤ) : ℚ) * GROWTH_PER_BONE) ∧
    (n ≤ 100 →
      (collectBone^[n] (spawnChar ai ci nm rot)).size
        = min MAX_SIZE (max MIN_SIZE (MIN_SIZE +
            (((collectBone^[n] (spawnChar ai ci nm rot)).bones : ℤ) : ℚ) * GROWTH_PER_BONE))) ∧
    MIN_SIZE ≤ (collectBone^[n] (spawnChar ai ci nm rot)).size ∧
    (collectBone^[n] (spawnChar ai ci nm rot)).size ≤ MAX_SIZE ∧
    (collectBone^[m] (spawnChar ai ci nm rot)).size
        ≤ (collectBone^[n] (spawnChar ai ci nm rot)).size ∧
    (∀ c : CharState, ∀ req : ℤ, 0 ≤ req → 0 < c.bones → c.bones ≤ 100 →
      (dropSomeBones c (some req)).1.size
        = min MAX_SIZE (max MIN_SIZE (MIN_SIZE +
            (((dropSomeBones c (some req)).1.bones : ℤ) : ℚ) * GROWTH_PER_BONE))) ∧
    (∀ c : CharState, 0 < c.bones → (dropAllBones c).1.size = MIN_SIZE) ∧
    (∀ c : CharState, ∀ rt : ℚ, (respawn c rt).size = MIN_SIZE) := by
  have key : ∀ k : ℕ, (collectBone^[k] (spawnChar ai ci nm rot)).size
      = MIN_SIZE + ((min (k:ℤ) 101 : ℤ) : ℚ) * GROWTH_PER_BONE := by
    intro k
    rw [collectBone_iterate]
    rfl
  have hboundLo : ∀ k : ℕ, MIN_SIZE ≤ MIN_SIZE + ((min (k:ℤ) 101 : ℤ) : ℚ) * GROWTH_PER_BONE := by
    intro k
    have h0 : (0:ℚ) ≤ ((min (k:ℤ) 101 : ℤ) : ℚ) := by exact_mod_cast (by omega : (0:ℤ) ≤ min (k:ℤ) 101)
    rw [GROWTH_PER_BONE]
    nlinarith
  have hboundHi : ∀ k : ℕ, MIN_SIZE + ((min (k:ℤ) 101 : ℤ) : ℚ) * GROWTH_PER_BONE ≤ MAX_SIZE := by
    intro k
    have h1 : ((min (k:ℤ) 101 : ℤ) : ℚ) ≤ 101 := by exact_mod_cast (by omega : min (k:ℤ) 101 ≤ 101)
    have h0 : (0:ℚ) ≤ ((min (k:ℤ) 101 : ℤ) : ℚ) := by exact_mod_cast (by omega : (0:ℤ) ≤ min (k:ℤ) 101)
    rw [MIN_SIZE, MAX_SIZE, GROWTH_PER_BONE]
    nlinarith
  refine ⟨key n, fun h100 => ?_, ?_, ?_, ?_, fun c req hreq h0 h100 => ?_, fun c h0 => ?_,
    fun c rt => rfl⟩
  · rw [collectBone_iterate]
    unfold collectSeqState
    dsimp only
    have e1 : min (n:ℤ) 100 = (n:ℤ) := by omega
    have e2 : min (n:ℤ) 101 = (n:ℤ) := by omega
    rw [e1, e2]
    have hle : MIN_SIZE + ((n:ℤ):ℚ) * GROWTH_PER_BONE ≤ MAX_SIZE := by
      have h1 : ((n:ℤ):ℚ) ≤ 100 := by exact_mod_cast (by omega : (n:ℤ) ≤ 100)
      have h0 : (0:ℚ) ≤ ((n:ℤ):ℚ) := by exact_mod_cast (by omega : (0:ℤ) ≤ (n:ℤ))
      rw [MIN_SIZE, MAX_SIZE, GROWTH_PER_BONE]
      nlinarith
    have hge : MIN_SIZE ≤ MIN_SIZE + ((n:ℤ):ℚ) * GROWTH_PER_BONE := by
      have h0 : (0:ℚ) ≤ ((n:ℤ):ℚ) := by exact_mod_cast (by omega : (0:ℤ) ≤ (n:ℤ))
      rw [MIN_SIZE, GROWTH_PER_BONE]
      nlinarith
    rw [max_eq_right hge, min_eq_right hle]
  · rw [key n]
    exact hboundLo n
  · rw [key n]
    exact hboundHi n
  · rw [key n, key m]
    have hmono : ((min (m:ℤ) 101 : ℤ) : ℚ) ≤ ((min (n:ℤ) 101 : ℤ) : ℚ) := by
      exact_mod_cast (by omega : min (m:ℤ) 101 ≤ min (n:ℤ) 101)
    rw [GROWTH_PER_BONE]
    nlinarith
  · have gen : ∀ b2 : ℤ, 0 ≤ b2 → b2 ≤ 100 →
        max MIN_SIZE (MIN_SIZE + ((b2:ℤ):ℚ) * GROWTH_PER_BONE)
          = min MAX_SIZE (max MIN_SIZE (MIN_SIZE + ((b2:ℤ):ℚ) * GROWTH_PER_BONE)) := by
      intro b2 hb2lo hb2hi
      have h1 : ((b2:ℤ):ℚ) ≤ 100 := by exact_mod_cast hb2hi
      have h02 : (0:ℚ) ≤ ((b2:ℤ):ℚ) := by exact_mod_cast hb2lo
      have hle : MIN_SIZE + ((b2:ℤ):ℚ) * GROWTH_PER_BONE ≤ MAX_SIZE := by
        rw [MIN_SIZE, MAX_SIZE, GROWTH_PER_BONE]
        nlinarith
      have hge : MIN_SIZE ≤ MIN_SIZE + ((b2:ℤ):ℚ) * GROWTH_PER_BONE := by
        rw [MIN_SIZE, GROWTH_PER_BONE]
        nlinarith
      rw [max_eq_right hge, min_eq_right hle]
    unfold dropSomeBones
    dsimp only
    rw [if_neg (by omega)]
    dsimp only
    simp only [BONES_TO_DROP]
    split_ifs with hreq0
    · exact gen _ (by omega) (by omega)
    · exact gen _ (by omega) (by omega)
  · unfold dropAllBones
    rw [if_neg (by omega)]

/-- C5 witness at a concrete sequence length. -/
theorem c5_amended_witness :
    2 ≤ 5 ∧ (collectBone^[5] (spawnChar false 0 "Player" 0)).size ≤ MAX_SIZE :=
  ⟨by decide, (c5_amended false 0 "Player" 0 5 2 (by decide)).2.2.2.1⟩

/-- Shared facts about the partial-hit branch. -/
theorem handleBite_weak_branch (attacker victim : CharState) (r kx kz : ℚ)
    (hdy : victim.isDying = false) (hr0 : 0 ≤ r) (hr1 : r < 1)
    (ha0 : 0 ≤ attacker.bones) (hlt : attacker.bones < victim.bones) :
    (handleBiteCollision attacker victim r kx kz).1.isDying = false ∧
    (handleBiteCollision attacker victim r kx kz).2
        = min ⌈(victim.bones : ℚ) * (1/4 + r * (15/100))⌉ 10 ∧
    (handleBiteCollision attacker victim r kx kz).1.bones
        = victim.bones - min ⌈(victim.bones : ℚ) * (1/4 + r * (15/100))⌉ 10 := by
  have hb1 : 1 ≤ victim.bones := by omega
  have hbQ : (1:ℚ) ≤ (victim.bones : ℚ) := by exact_mod_cast hb1
  have hp1 : (1/4:ℚ) ≤ 1/4 + r * (15/100) := by nlinarith
  have hp2 : (1/4:ℚ) + r * (15/100) < 2/5 := by nlinarith
  have hbpos : (0:ℚ) < (victim.bones : ℚ) * (1/4 + r * (15/100)) := by nlinarith
  have hceil : 0 < ⌈(victim.bones : ℚ) * (1/4 + r * (15/100))⌉ := Int.ceil_pos.mpr hbpos
  have hceil_le : ⌈(victim.bones : ℚ) * (1/4 + r * (15/100))⌉ ≤ victim.bones := by
    apply Int.ceil_le.mpr
    have : (victim.bones : ℚ) * (1/4 + r * (15/100)) ≤ (victim.bones : ℚ) * 1 := by
      apply mul_le_mul_of_nonneg_left _ (by linarith)
      linarith
    simpa using this
  have hbtd : 0 < min ⌈(victim.bones : ℚ) * (1/4 + r * (15/100))⌉ 10 := lt_min hceil (by norm_num)
  unfold handleBiteCollision
  rw [if_neg (by simp [hdy])]
  dsimp only
  rw [if_neg (by omega), if_neg (by omega), if_pos hbtd]
  unfold dropSomeBones
  rw [if_neg (by omega)]
  dsimp only
  rw [if_neg (by omega)]
  unfold applyKnockback
  dsimp only
  refine ⟨hdy, ?_, ?_⟩ <;> omega

/-- C1: the bite resource-transfer policy. A victim with zero resources
dies with no pickups; an attacker at least as strong kills the victim,
zeroing its count and ejecting `min(pre-hit count, 15)` pickups; a
strictly weaker attacker causes a partial hit dropping
`min(ceil(count × p), 10)` bones for `p = 0.25 + r × 0.15 ∈ [0.25, 0.4)`
without killing the victim. -/
theorem c1_combat_resolution (attacker victim : CharState) (r kx kz : ℚ)
    (hdy : victim.isDying = false) (hr0 : 0 ≤ r) (hr1 : r < 1) :
    (victim.bones = 0 →
      (handleBiteCollision attacker victim r kx kz).1.isDying = true ∧
      (handleBiteCollision attacker victim r kx kz).1.bones = 0 ∧
      (handleBiteCollision attacker victim r kx kz).2 = 0) ∧
    (0 < victim.bones → victim.bones ≤ attacker.bones →
      (handleBiteCollision attacker victim r kx kz).1.isDying = true ∧
      (handleBiteCollision attacker victim r kx kz).1.bones = 0 ∧
      (handleBiteCollision attacker victim r kx kz).2 = min victim.bones 15) ∧
    (0 ≤ attacker.bones → attacker.bones < victim.bones →
      (handleBiteCollision attacker victim r kx kz).1.isDying = false ∧
      (handleBiteCollision attacker victim r kx kz).2
          = min ⌈(victim.bones : ℚ) * (1/4 + r * (15/100))⌉ 10 ∧
      0 < (handleBiteCollision attacker victim r kx kz).2 ∧
      (handleBiteCollision attacker victim r kx kz).2 ≤ 10 ∧
      (handleBiteCollision attacker victim r kx kz).1.bones
          = victim.bones - (handleBiteCollision attacker victim r kx kz).2 ∧
      (1/4 : ℚ) ≤ 1/4 + r * (15/100) ∧ (1/4 : ℚ) + r * (15/100) < 2/5) := by
  refine ⟨fun h0 => ?_, fun h0 hle => ?_, fun ha0 hlt => ?_⟩
  · unfold handleBiteCollision
    rw [if_neg (by simp [hdy])]
    dsimp only
    rw [if_pos h0]
    unfold dropAllBones
    rw [if_pos (by omega)]
    unfold applyKnockback
    exact ⟨rfl, h0, rfl⟩
  · unfold handleBiteCollision
    rw [if_neg (by simp [hdy])]
    dsimp only
    rw [if_neg (by omega), if_pos (by omega), if_pos (by omega)]
    unfold dropAllBones
    rw [if_neg (by omega)]
    unfold applyKnockback
    exact ⟨rfl, rfl, rfl⟩
  · obtain ⟨hd, he, hb⟩ := handleBite_weak_branch attacker victim r kx kz hdy hr0 hr1 ha0 hlt
    have hb1 : 1 ≤ victim.bones := by omega
    have hbQ : (1:ℚ) ≤ (victim.bones : ℚ) := by exact_mod_cast hb1
    have hp1 : (1/4:ℚ) ≤ 1/4 + r * (15/100) := by nlinarith
    have hp2 : (1/4:ℚ) + r * (15/100) < 2/5 := by nlinarith
    have hbpos : (0:ℚ) < (victim.bones : ℚ) * (1/4 + r * (15/100)) := by nlinarith
    have hceil : 0 < ⌈(victim.bones : ℚ) * (1/4 + r * (15/100))⌉ := Int.ceil_pos.mpr hbpos
    refine ⟨hd, he, ?_, ?_, ?_, hp1, hp2⟩
    · rw [he]
      exact lt_min hceil (by norm_num)
    · rw [he]
      exact min_le_right _ _
    · rw [he, hb]

/-- C1 witness: the specification's fatal-hit scenario (attacker 10,
victim 5). -/
theorem c1_witness :
    ({ spawnChar false 1 "B" 0 with bones := 5 : CharState }.isDying = false ∧
      (0:ℚ) ≤ 3/10 ∧ (3/10:ℚ) < 1 ∧
      (0:ℤ) < 5 ∧ (5:ℤ) ≤ 10) ∧
    ((handleBiteCollision { spawnChar false 0 "A" 0 with bones := 10 }
        { spawnChar false 1 "B" 0 with bones := 5 } (3/10) 1 0).1.isDying = true ∧
      (handleBiteCollision { spawnChar false 0 "A" 0 with bones := 10 }
        { spawnChar false 1 "B" 0 with bones := 5 } (3/10) 1 0).1.bones = 0 ∧
      (handleBiteCollision { spawnChar false 0 "A" 0 with bones := 10 }
        { spawnChar false 1 "B" 0 with bones := 5 } (3/10) 1 0).2
          = min ({ spawnChar false 1 "B" 0 with bones := 5 : CharState }).bones 15) :=
  ⟨⟨rfl, by norm_num, by norm_num, by decide, by decide⟩,
    (c1_combat_resolution { spawnChar false 0 "A" 0 with bones := 10 }
      { spawnChar false 1 "B" 0 with bones := 5 } (3/10) 1 0 rfl (by norm_num)
      (by norm_num)).2.1 (by decide) (by decide)⟩

/-- C2 counterexample: a partial hit on a victim holding exactly 1 bone
(attacker 0, within partial-hit scope) leaves the victim with 0 bones,
refuting the claim that the post-hit count is always strictly positive. -/
theorem c2_counterexample :
    ((spawnChar false 0 "A" 0).bones
        < { spawnChar false 1 "B" 0 with bones := 1 : CharState }.bones) ∧
    (0:ℤ) < { spawnChar false 1 "B" 0 with bones := 1 : CharState }.bones ∧
    (handleBiteCollision (spawnChar false 0 "A" 0)
        { spawnChar false 1 "B" 0 with bones := 1 } (1/3) 1 0).1.bones = 0 := by
  refine ⟨by decide, by decide, ?_⟩
  obtain ⟨-, -, hb⟩ := handleBite_weak_branch (spawnChar false 0 "A" 0)
    { spawnChar false 1 "B" 0 with bones := 1 } (1/3) 1 0 rfl (by norm_num) (by norm_num)
    (by decide) (by decide)
  rw [hb]
  have : ⌈((({ spawnChar false 1 "B" 0 with bones := 1 } : CharState).bones : ℚ))
      * (1/4 + (1/3) * (15/100))⌉ = 1 := by
    rw [show ((({ spawnChar false 1 "B" 0 with bones := 1 } : CharState).bones : ℚ))
        * (1/4 + (1/3) * (15/100)) = 3/10 by norm_num]
    rw [Int.ceil_eq_iff]
    norm_num
  rw [this]
  decide

/-- C2 amended: in a partial hit the post-hit count equals the pre-hit
count minus `min(ceil(count × p), 10)`; it is strictly positive whenever
the pre-hit count is at least 2, but a victim holding exactly 1 bone
drops it and survives with 0. -/
theorem c2_amended (attacker victim : CharState) (r kx kz : ℚ)
    (hdy : victim.isDying = false) (hr0 : 0 ≤ r) (hr1 : r < 1)
    (ha0 : 0 ≤ attacker.bones) (hlt : attacker.bones < victim.bones) :
    (handleBiteCollision attacker victim r kx kz).1.bones
        = victim.bones - min ⌈(victim.bones : ℚ) * (1/4 + r * (15/100))⌉ 10 ∧
    (2 ≤ victim.bones → 0 < (handleBiteCollision attacker victim r kx kz).1.bones) ∧
    (victim.bones = 1 →
      (handleBiteCollision attacker victim r kx kz).1.bones = 0 ∧
      (handleBiteCollision attacker victim r kx kz).1.isDying = false) := by
  obtain ⟨hd, he, hb⟩ := handleBite_weak_branch attacker victim r kx kz hdy hr0 hr1 ha0 hlt
  have hb1 : 1 ≤ victim.bones := by omega
  have hbQ : (1:ℚ) ≤ (victim.bones : ℚ) := by exact_mod_cast hb1
  have hp1 : (1/4:ℚ) ≤ 1/4 + r * (15/100) := by nlinarith
  have hp2 : (1/4:ℚ) + r * (15/100) < 2/5 := by nlinarith
  refine ⟨hb, fun h2 => ?_, fun h1 => ?_⟩
  · rw [hb]
    by_cases hbig : 11 ≤ victim.bones
    · have : min ⌈(victim.bones : ℚ) * (1/4 + r * (15/100))⌉ 10 ≤ 10 := min_le_right _ _
      omega
    · have h2Q : (2:ℚ) ≤ (victim.bones : ℚ) := by exact_mod_cast h2
      have hstep : (victim.bones : ℚ) * (1/4 + r * (15/100))
          ≤ ((victim.bones - 1 : ℤ) : ℚ) := by
        push_cast
        nlinarith
      have hceil_le : ⌈(victim.bones : ℚ) * (1/4 + r * (15/100))⌉ ≤ victim.bones - 1 :=
        Int.ceil_le.mpr hstep
      have : min ⌈(victim.bones : ℚ) * (1/4 + r * (15/100))⌉ 10 ≤ victim.bones - 1 := by
        omega
      omega
  · have hbv : victim.bones = 1 := h1
    rw [hb, hbv]
    refine ⟨?_, hd⟩
    have hup : (1:ℚ) * (1/4 + r * (15/100)) ≤ ((1:ℤ):ℚ) := by push_cast; nlinarith
    have h1le : ⌈((1:ℤ):ℚ) * (1/4 + r * (15/100))⌉ ≤ 1 := by
      apply Int.ceil_le.mpr
      push_cast
      push_cast at hup
      nlinarith
    have h1pos : 0 < ⌈((1:ℤ):ℚ) * (1/4 + r * (15/100))⌉ := by
      apply Int.ceil_pos.mpr
      push_cast
      nlinarith
    have : (⌈((victim.bones):ℚ) * (1/4 + r * (15/100))⌉ : ℤ)
        = ⌈((1:ℤ):ℚ) * (1/4 + r * (15/100))⌉ := by
      rw [hbv]
    omega

/-- C2 witness: the specification's partial-hit scenario (attacker 3,
victim 20, percentage roll giving p = 0.3, post-hit count 14 > 0). -/
theorem c2_amended_witness :
    ({ spawnChar false 1 "B" 0 with bones := 20 : CharState }.isDying = false ∧
      (0:ℚ) ≤ 1/3 ∧ (1/3:ℚ) < 1 ∧
      (0:ℤ) ≤ { spawnChar false 0 "A" 0 with bones := 3 : CharState }.bones ∧
      { spawnChar false 0 "A" 0 with bones := 3 : CharState }.bones
        < { spawnChar false 1 "B" 0 with bones := 20 : CharState }.bones) ∧
    ((2:ℤ) ≤ 20 ∧
      0 < (handleBiteCollision { spawnChar false 0 "A" 0 with bones := 3 }
          { spawnChar false 1 "B" 0 with bones := 20 } (1/3) 1 0).1.bones) :=
  ⟨⟨rfl, by norm_num, by norm_num, by decide, by decide⟩,
    ⟨by decide, (c2_amended { spawnChar false 0 "A" 0 with bones := 3 }
      { spawnChar false 1 "B" 0 with bones := 20 } (1/3) 1 0 rfl (by norm_num) (by norm_num)
      (by decide) (by decide)).2.1 (by decide)⟩⟩

theorem fallAndGravity_grounded (obs : List Collidable) (dt : ℚ) (c : CharState)
    (hj : c.isJumping = false) (hy : ¬c.posY > GROUND_LEVEL) :
    fallAndGravity obs dt c = c := by
  unfold fallAndGravity
  dsimp only
  simp [hj, hy]

theorem boundsClamp_id (c : CharState)
    (hx1 : -45 ≤ c.posX) (hx2 : c.posX ≤ 45) (hz1 : -45 ≤ c.posZ) (hz2 : c.posZ ≤ 45) :
    boundsClamp c = c := by
  unfold boundsClamp
  rw [min_eq_right hx2, max_eq_right hx1, min_eq_right hz2, max_eq_right hz1]

theorem playerApplyMove_blocked (env : MoveEnv) (keys : Keys) (dt : ℚ) (c : CharState)
    (hsp : keys.space = false) (hb : keys.b = false) (hup : keys.up = false)
    (hdn : keys.down = false) (hlt : keys.left = false) (hrt : keys.right = false)
    (hjump : c.isJumping = false) (hy : c.posY = GROUND_LEVEL)
    (hx1 : -45 ≤ c.posX) (hx2 : c.posX ≤ 45) (hz1 : -45 ≤ c.posZ) (hz2 : c.posZ ≤ 45)
    (hdir : moveDirX keys ≠ 0 ∨ moveDirZ keys ≠ 0)
    (hblocked : checkCollision c.size (c.posX + moveDirX keys * currentMoveSpeed c)
        c.posY (c.posZ + moveDirZ keys * currentMoveSpeed c) env.obstacles = true) :
    playerApplyMove env keys dt c
      = { c with isMoving := false, rotation := env.rotOf (moveDirX keys) (moveDirZ keys) } := by
  have hgr : ∀ c2 : CharState, c2.isJumping = false → c2.posY = GROUND_LEVEL →
      fallAndGravity env.obstacles dt c2 = c2 := fun c2 hj2 hy2 =>
    fallAndGravity_grounded _ _ _ hj2 (by rw [hy2]; exact lt_irrefl _)
  unfold playerApplyMove wasdMove
  dsimp only
  simp only [hsp, hb, hup, hdn, hlt, hrt, Bool.false_eq_true, false_and, and_false,
    if_false, ite_false, if_pos hdir, hblocked, not_true, if_neg]
  refine Eq.trans (congrArg boundsClamp (hgr _ ?_ ?_)) (boundsClamp_id _ hx1 hx2 hz1 hz2)
  · exact hjump
  · exact hy

theorem aiApplyMove_blocked (env : MoveEnv) (steer : AISteer) (dt : ℚ) (dir : ℚ × ℚ)
    (c : CharState)
    (htar : steer.target = some dir) (hsb : steer.shouldBite = false)
    (hjump : c.isJumping = false) (hy : c.posY = GROUND_LEVEL)
    (hx1 : -45 ≤ c.posX) (hx2 : c.posX ≤ 45) (hz1 : -45 ≤ c.posZ) (hz2 : c.posZ ≤ 45)
    (hblocked : checkCollision c.size
        (c.posX + dir.1 * (MOVE_SPEED * AI_MOVE_SPEED_MULTIPLIER * (1 / c.size) * dt * 60 *
          aiSpeedMult steer))
        c.posY
        (c.posZ + dir.2 * (MOVE_SPEED * AI_MOVE_SPEED_MULTIPLIER * (1 / c.size) * dt * 60 *
          aiSpeedMult steer)) env.obstacles = true) :
    aiApplyMove env steer dt c = { c with rotation := env.aiRotOf dir.1 dir.2 } := by
  unfold aiApplyMove aiTargetMove
  dsimp only
  rw [fallAndGravity_grounded _ _ _ hjump (by rw [hy]; exact lt_irrefl _), htar]
  dsimp only
  simp only [hblocked, not_true, if_neg, hsb, Bool.false_eq_true, false_and, and_false,
    if_false, ite_false]
  exact boundsClamp_id _ hx1 hx2 hz1 hz2

/-- C6 amended: a blocked voluntary move never changes position or
velocity and repeating it is a no-op; the `isMoving` flag is cleared on
rejection for player-controlled agents, while the AI movement path never
clears it (it merely fails to set it), so an AI agent can keep reporting
`isMoving = true` after a blocked move. -/
theorem c6_amended (env : MoveEnv) (keys : Keys) (dt : ℚ) (steer : AISteer) (c : CharState)
    (hAI : c.isAI = false) (hdy : c.isDying = false) (hhit : c.isHit = false)
    (hkb : ¬c.knockbackTime > 0) (hbite : c.isBiting = false)
    (hjump : c.isJumping = false) (hy : c.posY = GROUND_LEVEL)
    (hx1 : -45 ≤ c.posX) (hx2 : c.posX ≤ 45) (hz1 : -45 ≤ c.posZ) (hz2 : c.posZ ≤ 45)
    (hsp : keys.space = false) (hb : keys.b = false) (hup : keys.up = false)
    (hdn : keys.down = false) (hlt : keys.left = false) (hrt : keys.right = false)
    (hdir : moveDirX keys ≠ 0 ∨ moveDirZ keys ≠ 0)
    (hblocked : checkCollision c.size (c.posX + moveDirX keys * currentMoveSpeed c)
        c.posY (c.posZ + moveDirZ keys * currentMoveSpeed c) env.obstacles = true) :
    (charUpdate env keys dt steer c
      = { c with isMoving := false, rotation := env.rotOf (moveDirX keys) (moveDirZ keys) }) ∧
    charUpdate env keys dt steer (charUpdate env keys dt steer c)
      = charUpdate env keys dt steer c ∧
    (∀ (envA : MoveEnv) (keysA : Keys) (steerA : AISteer) (cA : CharState) (dir : ℚ × ℚ),
      cA.isAI = true → cA.isDying = false → cA.isHit = false →
      ¬cA.knockbackTime > 0 → cA.isBiting = false →
      steerA.target = some dir → steerA.shouldBite = false →
      cA.isJumping = false → cA.posY = GROUND_LEVEL →
      -45 ≤ cA.posX → cA.posX ≤ 45 → -45 ≤ cA.posZ → cA.posZ ≤ 45 →
      checkCollision cA.size
          (cA.posX + dir.1 * (MOVE_SPEED * AI_MOVE_SPEED_MULTIPLIER * (1 / cA.size) * dt * 60 *
            aiSpeedMult steerA))
          cA.posY
          (cA.posZ + dir.2 * (MOVE_SPEED * AI_MOVE_SPEED_MULTIPLIER * (1 / cA.size) * dt * 60 *
            aiSpeedMult steerA)) envA.obstacles = true →
      (charUpdate envA keysA dt steerA cA
          = { cA with rotation := envA.aiRotOf dir.1 dir.2 }) ∧
      (charUpdate envA keysA dt steerA cA).isMoving = cA.isMoving ∧
      charUpdate envA keysA dt steerA (charUpdate envA keysA dt steerA cA)
        = charUpdate envA keysA dt steerA cA) := by
  have main : ∀ c0 : CharState, c0.isAI = false → c0.isDying = false → c0.isHit = false →
      ¬c0.knockbackTime > 0 → c0.isBiting = false → c0.isJumping = false →
      c0.posY = GROUND_LEVEL → -45 ≤ c0.posX → c0.posX ≤ 45 → -45 ≤ c0.posZ → c0.posZ ≤ 45 →
      checkCollision c0.size (c0.posX + moveDirX keys * currentMoveSpeed c0)
        c0.posY (c0.posZ + moveDirZ keys * currentMoveSpeed c0) env.obstacles = true →
      charUpdate env keys dt steer c0
        = { c0 with
            isMoving := false, rotation := env.rotOf (moveDirX keys) (moveDirZ keys) } := by
    intro c0 hAI0 hdy0 hhit0 hkb0 hbite0 hjump0 hy0 hx10 hx20 hz10 hz20 hblocked0
    have nf1 : ¬(c0.isDying = true) := by rw [hdy0]; simp
    have nf2 : ¬(c0.isHit = true) := by rw [hhit0]; simp
    have nf3 : ¬(c0.isAI = true) := by rw [hAI0]; simp
    have nf4 : ¬(c0.isBiting = true) := by rw [hbite0]; simp
    have nb : ¬(c0.isBiting = true ∧ c0.biteTimer ≤ 0) := fun h => nf4 h.1
    unfold charUpdate
    rw [if_neg nf1]
    dsimp only
    rw [if_neg nf2, if_neg nf3]
    rw [playerApplyMove_blocked env keys dt c0 hsp hb hup hdn hlt hrt hjump0 hy0 hx10 hx20
      hz10 hz20 hdir hblocked0]
    dsimp only
    rw [if_neg nb, if_neg hkb0, if_neg nf4]
  have hstep := main c hAI hdy hhit hkb hbite hjump hy hx1 hx2 hz1 hz2 hblocked
  refine ⟨hstep, ?_, ?_⟩
  · rw [hstep]
    exact main _ hAI hdy hhit hkb hbite hjump hy hx1 hx2 hz1 hz2 hblocked
  · intro envA keysA steerA cA dir hAI2 hdy2 hhit2 hkb2 hbite2 htar2 hsb2 hjump2 hy2
      hx12 hx22 hz12 hz22 hblocked2
    have mainA : ∀ cB : CharState, cB.isAI = true → cB.isDying = false → cB.isHit = false →
        ¬cB.knockbackTime > 0 → cB.isBiting = false → cB.isJumping = false →
        cB.posY = GROUND_LEVEL → -45 ≤ cB.posX → cB.posX ≤ 45 → -45 ≤ cB.posZ → cB.posZ ≤ 45 →
        checkCollision cB.size
          (cB.posX + dir.1 * (MOVE_SPEED * AI_MOVE_SPEED_MULTIPLIER * (1 / cB.size) * dt * 60 *
            aiSpeedMult steerA))
          cB.posY
          (cB.posZ + dir.2 * (MOVE_SPEED * AI_MOVE_SPEED_MULTIPLIER * (1 / cB.size) * dt * 60 *
            aiSpeedMult steerA)) envA.obstacles = true →
        charUpdate envA keysA dt steerA cB
          = { cB with rotation := envA.aiRotOf dir.1 dir.2 } := by
      intro cB hAI0 hdy0 hhit0 hkb0 hbite0 hjump0 hy0 hx10 hx20 hz10 hz20 hblocked0
      have nf1 : ¬(cB.isDying = true) := by rw [hdy0]; simp
      have nf2 : ¬(cB.isHit = true) := by rw [hhit0]; simp
      have nf4 : ¬(cB.isBiting = true) := by rw [hbite0]; simp
      have nb : ¬(cB.isBiting = true ∧ cB.biteTimer ≤ 0) := fun h => nf4 h.1
      unfold charUpdate
      rw [if_neg nf1]
      dsimp only
      rw [if_neg nf2, if_pos hAI0]
      rw [aiApplyMove_blocked envA steerA dt dir cB htar2 hsb2 hjump0 hy0 hx10 hx20 hz10 hz20
        hblocked0]
      dsimp only
      rw [if_neg nb, if_neg hkb0, if_neg nf4]
    have hstepA := mainA cA hAI2 hdy2 hhit2 hkb2 hbite2 hjump2 hy2 hx12 hx22 hz12 hz22 hblocked2
    refine ⟨hstepA, by rw [hstepA], ?_⟩
    rw [hstepA]
    exact mainA _ hAI2 hdy2 hhit2 hkb2 hbite2 hjump2 hy2 hx12 hx22 hz12 hz22 hblocked2

/-- C6 counterexample: an AI agent whose voluntary move is blocked keeps
its position (the move is rejected) but its `isMoving` flag stays `true`
after the tick — the claim requires it to be `false` for every agent. -/
theorem c6_counterexample :
    (charUpdate c6Env noKeys (1/60) c6Steer c6Char).posX = c6Char.posX ∧
    (charUpdate c6Env noKeys (1/60) c6Steer c6Char).posZ = c6Char.posZ ∧
    (charUpdate c6Env noKeys (1/60) c6Steer c6Char).isMoving = true := by
  refine ⟨?_, ?_, ?_⟩ <;> with_unfolding_all decide

theorem c6_amended_witness :
    (c6PChar.isAI = false ∧
      checkCollision c6PChar.size (c6PChar.posX + moveDirX c6PKeys * currentMoveSpeed c6PChar)
        c6PChar.posY (c6PChar.posZ + moveDirZ c6PKeys * currentMoveSpeed c6PChar)
        c6Env.obstacles = true) ∧
    charUpdate c6Env c6PKeys (1/60) c6Steer c6PChar
      = { c6PChar with
          isMoving := false, rotation := c6Env.rotOf (moveDirX c6PKeys) (moveDirZ c6PKeys) } :=
  ⟨⟨rfl, by with_unfolding_all decide⟩,
    (c6_amended c6Env c6PKeys (1/60) c6Steer c6PChar rfl rfl rfl
      (by with_unfolding_all decide) rfl rfl rfl
      (by with_unfolding_all decide) (by with_unfolding_all decide)
      (by with_unfolding_all decide) (by with_unfolding_all decide)
      rfl rfl rfl rfl rfl rfl
      (by with_unfolding_all decide) (by with_unfolding_all decide)).1⟩

/-- C8 counterexample: the richer decision tree does not apply its rules
in the claimed strict order — on `c8Ctx` the first matching rule of the
claimed order is flee, but the code selects no target at all (idle). -/
theorem c8_counterexample :
    aiDecideRich c8Ctx = AIRule.idle ∧ claimedSelectRich c8Ctx = AIRule.flee ∧
    aiDecideRich c8Ctx ≠ claimedSelectRich c8Ctx := by
  refine ⟨?_, ?_, ?_⟩ <;> with_unfolding_all decide

/-- C8 amended: rule priority as the code implements it. Both variants
put revenge first; the richer variant then tries leader-targeting, and
afterwards splits by rank — bottom-five agents apply flee, then
safety-gated bone hunting (an unsafe bone yields idle, not attack), then
attack-weakest; all other agents apply safety-gated bone hunting *before*
flee and attack-weakest. The simple variant follows the claimed order
revenge, flee, attack-weakest, bone hunting, idle (it has no leader
rule). -/
theorem c8_amended :
    (∀ ctx, richRevengeCond ctx = true → aiDecideRich ctx = AIRule.revenge) ∧
    (∀ ctx, richRevengeCond ctx = false → richLeaderCond ctx = true →
        aiDecideRich ctx = AIRule.leader) ∧
    (∀ ctx, richRevengeCond ctx = false → richLeaderCond ctx = false →
        ctx.isBottomFive = true →
      (bottomFleeCond ctx = true → aiDecideRich ctx = AIRule.flee) ∧
      (bottomFleeCond ctx = false → ctx.hasNearestBone = true → bottomSafeCond ctx = true →
          aiDecideRich ctx = AIRule.huntBone) ∧
      (bottomFleeCond ctx = false → ctx.hasNearestBone = true → bottomSafeCond ctx = false →
          aiDecideRich ctx = AIRule.idle) ∧
      (bottomFleeCond ctx = false → ctx.hasNearestBone = false → bottomAttackCond ctx = true →
          aiDecideRich ctx = AIRule.attackWeakest) ∧
      (bottomFleeCond ctx = false → ctx.hasNearestBone = false → bottomAttackCond ctx = false →
          aiDecideRich ctx = AIRule.idle)) ∧
    (∀ ctx, richRevengeCond ctx = false → richLeaderCond ctx = false →
        ctx.isBottomFive = false →
      (ctx.hasNearestBone = true → topSafeCond ctx = true →
          aiDecideRich ctx = AIRule.huntBone) ∧
      (ctx.hasNearestBone = true → topSafeCond ctx = false →
          aiDecideRich ctx = AIRule.idle) ∧
      (ctx.hasNearestBone = false → topFleeCond ctx = true →
          aiDecideRich ctx = AIRule.flee) ∧
      (ctx.hasNearestBone = false → topFleeCond ctx = false → topAttackCond ctx = true →
          aiDecideRich ctx = AIRule.attackWeakest) ∧
      (ctx.hasNearestBone = false → topFleeCond ctx = false → topAttackCond ctx = false →
          aiDecideRich ctx = AIRule.idle)) ∧
    (∀ ctx, ctx.revengeTarget.isSome = true → aiDecideSimple ctx = AIRule.revenge) ∧
    (∀ ctx, ctx.revengeTarget.isSome = false → simpleFleeCond ctx = true →
        aiDecideSimple ctx = AIRule.flee) ∧
    (∀ ctx, ctx.revengeTarget.isSome = false → simpleFleeCond ctx = false →
        ctx.weakestPlayer.isSome = true → aiDecideSimple ctx = AIRule.attackWeakest) ∧
    (∀ ctx, ctx.revengeTarget.isSome = false → simpleFleeCond ctx = false →
        ctx.weakestPlayer.isSome = false → ctx.hasNearestBone = true →
        aiDecideSimple ctx = AIRule.huntBone) ∧
    (∀ ctx, ctx.revengeTarget.isSome = false → simpleFleeCond ctx = false →
        ctx.weakestPlayer.isSome = false → ctx.hasNearestBone = false →
        aiDecideSimple ctx = AIRule.idle) := by
  refine ⟨fun ctx h1 => ?_, fun ctx h1 h2 => ?_, fun ctx h1 h2 h3 => ?_,
    fun ctx h1 h2 h3 => ?_, fun ctx h1 => ?_, fun ctx h1 h2 => ?_, fun ctx h1 h2 h3 => ?_,
    fun ctx h1 h2 h3 h4 => ?_, fun ctx h1 h2 h3 h4 => ?_⟩
  · simp [aiDecideRich, h1]
  · simp [aiDecideRich, h1, h2]
  · refine ⟨fun f1 => ?_, fun f1 f2 f3 => ?_, fun f1 f2 f3 => ?_, fun f1 f2 f3 => ?_,
      fun f1 f2 f3 => ?_⟩ <;> simp_all [aiDecideRich]
  · refine ⟨fun f1 f2 => ?_, fun f1 f2 => ?_, fun f1 f2 => ?_, fun f1 f2 f3 => ?_,
      fun f1 f2 f3 => ?_⟩ <;> simp_all [aiDecideRich]
  · simp [aiDecideSimple, h1]
  · simp [aiDecideSimple, h1, h2]
  · simp [aiDecideSimple, h1, h2, h3]
  · simp [aiDecideSimple, h1, h2, h3, h4]
  · simp [aiDecideSimple, h1, h2, h3, h4]

theorem c8_amended_witness :
    richRevengeCond c8RevCtx = true ∧ aiDecideRich c8RevCtx = AIRule.revenge :=
  ⟨by decide, c8_amended.1 c8RevCtx (by decide)⟩

/-- C4: once any agent has won, the tick is a no-op on the whole
simulation state, and stays a no-op for every later tick. -/
theorem c4_win_freeze (env : StageEnv) (dt : ℚ) (keys : Keys) (s : StageState)
    (h : ∃ p ∈ s.players, p.hasWon = true) :
    stageUpdate env dt keys s = s ∧
    ∀ n : ℕ, (fun st => stageUpdate env dt keys st)^[n] s = s := by
  have hany : (s.players.any fun p => p.hasWon) = true := by
    rw [List.any_eq_true]
    obtain ⟨p, hp, hw⟩ := h
    exact ⟨p, hp, hw⟩
  have h1 : stageUpdate env dt keys s = s := by
    unfold stageUpdate
    rw [if_pos hany]
  refine ⟨h1, fun n => ?_⟩
  induction n with
  | zero => rfl
  | succ k ih => rw [Function.iterate_succ_apply', ih]; exact h1

theorem c4_win_freeze_witness :
    (∃ p ∈ c4Stage.players, p.hasWon = true) ∧
    stageUpdate c4Env 1 noKeys c4Stage = c4Stage :=
  ⟨⟨{ spawnChar false 0 "Winner" 0 with bones := 100, hasWon := true },
      List.mem_singleton.mpr rfl, rfl⟩,
    (c4_win_freeze c4Env 1 noKeys c4Stage
      ⟨{ spawnChar false 0 "Winner" 0 with bones := 100, hasWon := true },
        List.mem_singleton.mpr rfl, rfl⟩).1⟩

/-- C9 amended: the tick equals the amended ordering — pickup against
pre-movement positions, then the movement loop in registration order,
then combat against post-movement positions. -/
theorem c9_amended (env : StageEnv) (dt : ℚ) (keys : Keys) (s : StageState) :
    stageUpdate env dt keys s = amendedOrderTick env dt keys s := by
  unfold stageUpdate amendedOrderTick updateBones
  rfl

/-- C9 counterexample: the player holds `w`, moving away from the bone.
The real tick collects the bone (pickup resolves *before* movement, at
the pre-movement position); under the claimed move-first ordering the
bone is not collected. -/
theorem c9_counterexample :
    (stageUpdate c4Env (1/60) c9Keys c9Stage).players.map (fun p => p.bones) = [1] ∧
    (specOrderTick c4Env (1/60) c9Keys c9Stage).players.map (fun p => p.bones) = [0] ∧
    stageUpdate c4Env (1/60) c9Keys c9Stage ≠ specOrderTick c4Env (1/60) c9Keys c9Stage := by
  have h1 : (stageUpdate c4Env (1/60) c9Keys c9Stage).players.map (fun p => p.bones) = [1] := by
    with_unfolding_all decide
  have h2 : (specOrderTick c4Env (1/60) c9Keys c9Stage).players.map (fun p => p.bones) = [0] := by
    with_unfolding_all decide
  refine ⟨h1, h2, fun h => ?_⟩
  rw [h, h2] at h1
  exact absurd h1 (by decide)

end DogGame
